import Mathlib

/-!
Verification development for the media-resource cache and scene-graph
inflation code of src/components/media-views.js (Mozilla Hubs).

The JavaScript is shallowly embedded: JS Map objects become association
lists with unique keys, JS numbers used as counters become Int, object
identity becomes a Nat id allocated from a monotone counter, and the
cooperative async control flow (await points) becomes explicit small-step
state machines driven by event traces.
-/

namespace MediaViews

/-! ### Association-list model of a JS Map

Keys in a JS Map are unique, so lookup/set act on the first (only)
occurrence and delete removes the key entirely. -/

def alookup {κ α : Type} [DecidableEq κ] : List (κ × α) → κ → Option α
  | [], _ => none
  | (k, v) :: rest, key => if k = key then some v else alookup rest key

def aset {κ α : Type} [DecidableEq κ] : List (κ × α) → κ → α → List (κ × α)
  | [], key, v => [(key, v)]
  | (k, w) :: rest, key, v => if k = key then (key, v) :: rest else (k, w) :: aset rest key v

def adelete {κ α : Type} [DecidableEq κ] : List (κ × α) → κ → List (κ × α)
  | [], _ => []
  | (k, w) :: rest, key => if k = key then adelete rest key else (k, w) :: adelete rest key

def ahas {κ α : Type} [DecidableEq κ] (m : List (κ × α)) (key : κ) : Bool :=
  (alookup m key).isSome

/-! ### Textures and their disposal (disposeTexture, lines 204-217)

A texture records whether its backing image is an HTMLVideoElement and
whether an hls.js controller is attached.  Disposal is modelled as the
list of teardown actions the source performs, in order. -/

inductive TexAction where
  | pause
  | clearSrc
  | load
  | hlsDestroy
  | disposeTex
deriving DecidableEq, Repr

structure Texture where
  texId : Nat
  isVideoEl : Bool
  hasHls : Bool
  width : ℚ
  height : ℚ
  videoWidth : ℚ
  videoHeight : ℚ
deriving DecidableEq, Repr

/-- JS: disposeTexture(texture).  If the image is a video element the video is
paused, its src cleared and load() called; an attached hls controller is
destroyed; finally texture.dispose() releases the GPU surface. -/
def disposeTexture (t : Texture) : List TexAction :=
  (if t.isVideoEl then [TexAction.pause, TexAction.clearSrc, TexAction.load] else []) ++
    (if t.hasHls then [TexAction.hlsDestroy] else []) ++ [TexAction.disposeTex]

/-- JS truthiness fallback x || y on numbers (0 is falsy; NaN does not arise
for the dimensions used here). -/
def jsOrQ (a b : ℚ) : ℚ := if a = 0 then b else a

structure CacheItem where
  texture : Texture
  ratioHW : ℚ
  count : Int
deriving DecidableEq, Repr

abbrev TexCacheT : Type := List (String × CacheItem)

namespace TextureCache

/-- JS: TextureCache.retain (count++ on the entry).  Retaining an absent key
dereferences undefined in JS; that crash is modelled as none. -/
def retain (cache : TexCacheT) (src : String) : Option (TexCacheT × CacheItem) :=
  match alookup cache src with
  | none => none
  | some item =>
    let item2 := { item with count := item.count + 1 }
    some (aset cache src item2, item2)

/-- JS: TextureCache.set (stores the entry with count 0 and the derived
aspect-ratio hint, then retains it).  Rational division is total in Lean
(x / 0 = 0) where JS would produce NaN/Infinity; no claim inspects that case. -/
def set (cache : TexCacheT) (src : String) (texture : Texture) :
    Option (TexCacheT × CacheItem) :=
  let item : CacheItem :=
    { texture := texture
      ratioHW := jsOrQ texture.videoHeight texture.height / jsOrQ texture.videoWidth texture.width
      count := 0 }
  retain (aset cache src item) src

def has (cache : TexCacheT) (src : String) : Bool := ahas cache src

/-- JS: TextureCache.release.  Returns the new table, the disposal actions
performed, and whether the releasing-uncached-src error was logged. -/
def release (cache : TexCacheT) (src : String) : TexCacheT × List TexAction × Bool :=
  match alookup cache src with
  | none => (cache, [], true)
  | some item =>
    let item2 := { item with count := item.count - 1 }
    if item2.count ≤ 0 then (adelete cache src, disposeTexture item2.texture, false)
    else (aset cache src item2, [], false)

end TextureCache

/-! ### GLTF cache (class GLTFCache, lines 987-1026)

A loaded gltf owns a scene graph; scene nodes carry a Nat identity.
GLTFCache.release at count 0 runs gltf.scene.traverse(disposeNode), a
preorder traversal disposing every node. -/

inductive SceneNode where
  | mk : Nat → List SceneNode → SceneNode

def SceneNode.nodeId : SceneNode → Nat
  | SceneNode.mk i _ => i

def SceneNode.childNodes : SceneNode → List SceneNode
  | SceneNode.mk _ cs => cs

mutual

/-- Preorder node listing of a scene graph: THREE.Object3D.traverse visits
the node itself, then recursively each child. -/
def sceneNodeIds : SceneNode → List Nat
  | SceneNode.mk i cs => i :: sceneListIds cs

def sceneListIds : List SceneNode → List Nat
  | [] => []
  | c :: rest => sceneNodeIds c ++ sceneListIds rest

end

structure Gltf where
  scene : SceneNode
  sceneAnimations : Nat

/-- Root object identity of the gltf scene. -/
def Gltf.sceneId (g : Gltf) : Nat := g.scene.nodeId

structure GltfItem where
  gltf : Gltf
  count : Int

abbrev GltfCacheT : Type := List (String × GltfItem)

namespace GLTFCache

def retain (cache : GltfCacheT) (src : String) : Option (GltfCacheT × GltfItem) :=
  match alookup cache src with
  | none => none
  | some item =>
    let item2 := { item with count := item.count + 1 }
    some (aset cache src item2, item2)

def set (cache : GltfCacheT) (src : String) (g : Gltf) : Option (GltfCacheT × GltfItem) :=
  retain (aset cache src { gltf := g, count := 0 }) src

def has (cache : GltfCacheT) (src : String) : Bool := ahas cache src

/-- JS: GLTFCache.release.  Returns the new table, the ids of the scene nodes
passed to disposeNode (in traversal order), and whether the
releasing-uncached-gltf error was logged. -/
def release (cache : GltfCacheT) (src : String) : GltfCacheT × List Nat × Bool :=
  match alookup cache src with
  | none => (cache, [], true)
  | some item =>
    let item2 := { item with count := item.count - 1 }
    if item2.count ≤ 0 then (adelete cache src, sceneNodeIds item2.gltf.scene, false)
    else (aset cache src item2, [], false)

end GLTFCache

/-! ### Animated GIF texture stepping (class GIFTexture, lines 35-67)

The frame images are modelled by Nat ids; canvas operations performed by
update() are returned as a list.  The constructor always sets frames,
delays and disposals (and reads frames[0]), so the three fields are
plain lists here and the truthiness guard of update() always passes
(a JS array is truthy even when empty). -/

inductive CanvasOp where
  | clearRect (x y w h : Nat)
  | drawImage (img : Nat) (x y w h : Nat)
deriving DecidableEq, Repr

structure GIFTexture where
  imageWidth : Nat
  imageHeight : Nat
  frames : List Nat
  delays : List Int
  disposals : List Nat
  frame : Nat
  frameStartTime : Int
  needsUpdate : Bool
deriving DecidableEq, Repr

/-- JS: GIFTexture.update, with Date.now() passed in.  An out-of-range frame
index would make the JS delay comparison (against undefined) false, which the
none branch mirrors; the frame advanced to is always in range thanks to the
modulo, and frames is nonempty, so the drawn image uses getD with an
irrelevant default. -/
def GIFTexture.update (t : GIFTexture) (now : Int) : GIFTexture × List CanvasOp :=
  match t.delays.get? t.frame with
  | none => (t, [])
  | some d =>
    if now - t.frameStartTime > d then
      let clearOps : List CanvasOp :=
        if t.disposals.get? t.frame = some 2 then
          -- source line 60 passes this.image.width for BOTH dimensions
          [CanvasOp.clearRect 0 0 t.imageWidth t.imageWidth]
        else []
      let newFrame := (t.frame + 1) % t.frames.length
      let img := t.frames.getD newFrame 0
      ({ t with frame := newFrame, frameStartTime := now, needsUpdate := true },
        clearOps ++ [CanvasOp.drawImage img 0 0 t.imageWidth t.imageHeight])
    else (t, [])

/-! ### Schema migration (runMigration, lines 1212-1232; version read in
loadGLTF, lines 1255-1263)

Node extension components are modelled by their key sets; a present key has
a truthy object value in the data of interest, and glTF object keys are
unique so deleting a key removes every occurrence. -/

structure JExts where
  mozHubsComponents : Option (List String)
  hubsComponents : Option (List String)
deriving DecidableEq, Repr

structure JNode where
  extensions : Option JExts
deriving DecidableEq, Repr

structure TopMoz where
  version : Option Int
deriving DecidableEq, Repr

structure TopExts where
  mozHubsComponents : Option TopMoz
deriving DecidableEq, Repr

structure GltfJson where
  extensions : Option TopExts
  nodes : List JNode
deriving DecidableEq, Repr

/-- Version extraction from loadGLTF: parser.json.extensions
.MOZ_hubs_components.version when present, else 0. -/
def getVersion (j : GltfJson) : Int :=
  match j.extensions with
  | some e =>
    match e.mozHubsComponents with
    | some m =>
      match m.version with
      | some v => v
      | none => 0
    | none => 0
  | none => 0

/-- Component table consulted by the migration predicate: MOZ_hubs_components
if present, else HUBS_components, else the node has no components. -/
def migrationComponents (n : JNode) : Option (List String) :=
  match n.extensions with
  | some e =>
    match e.mozHubsComponents with
    | some c => some c
    | none => e.hubsComponents
  | none => none

/-- The predicate of the find callback in runMigration: the node carries both
a heightfield and a nav-mesh component. -/
def isDualHeightfieldNode (n : JNode) : Bool :=
  match migrationComponents n with
  | some c => c.contains "heightfield" && c.contains "nav-mesh"
  | none => false

/-- The fix-up applied to the found node: delete heightfield from
MOZ_hubs_components when that table exists, else from HUBS_components. -/
def stripHeightfield (n : JNode) : JNode :=
  match n.extensions with
  | none => n
  | some e =>
    match e.mozHubsComponents with
    | some c =>
      let e2 := { e with mozHubsComponents := some (c.filter (fun k => decide ¬(k = "heightfield"))) }
      { n with extensions := some e2 }
    | none =>
      match e.hubsComponents with
      | some c =>
        let e2 := { e with hubsComponents := some (c.filter (fun k => decide ¬(k = "heightfield"))) }
        { n with extensions := some e2 }
      | none => n

/-- Array.prototype.find followed by the in-place fix-up: only the first
matching node is rewritten. -/
def stripFirstDual : List JNode → List JNode
  | [] => []
  | n :: ns => if isDualHeightfieldNode n then stripHeightfield n :: ns else n :: stripFirstDual ns

/-- JS: runMigration(version, json). -/
def runMigration (version : Int) (j : GltfJson) : GltfJson :=
  if version < 2 then { j with nodes := stripFirstDual j.nodes } else j

/-- The migration step as invoked by loadGLTF: runMigration(version, parser.json)
with the version read from the top-level extension metadata. -/
def migrateJson (j : GltfJson) : GltfJson :=
  runMigration (getVersion j) j

/-! ### Scene-graph inflation (inflateEntities, lines 1098-1178)

Transforms use exact rationals.  three.js keeps an Object3D's Euler rotation
and its quaternion synchronized, so a rotation is represented by its rotation
order together with the orientation quaternion it denotes:
Euler.setFromQuaternion(q, ord) yields (ord, q), and decomposing the identity
matrix yields the identity orientation with the order preserved.  Component
data values are modelled by Nat ids; THREE uuids by Nat ids. -/

structure Vec3 where
  x : ℚ
  y : ℚ
  z : ℚ
deriving DecidableEq, Repr

def Vec3.zero : Vec3 := ⟨0, 0, 0⟩

def Vec3.one : Vec3 := ⟨1, 1, 1⟩

def Vec3.mulScalar (v : Vec3) (s : ℚ) : Vec3 := ⟨v.x * s, v.y * s, v.z * s⟩

structure Quat where
  qx : ℚ
  qy : ℚ
  qz : ℚ
  qw : ℚ
deriving DecidableEq, Repr

def Quat.identityQ : Quat := ⟨0, 0, 0, 1⟩

structure GltfExtensionsData where
  mozHubsComponents : Option (List (String × Nat))
  hubsComponents : Option (List (String × Nat))
deriving DecidableEq, Repr

structure GNodeData where
  name : String
  uuid : Nat
  nodeType : String
  position : Vec3
  rotationOrder : String
  quaternion : Quat
  scale : Vec3
  matrixAutoUpdate : Bool
  gltfExtensions : Option GltfExtensionsData
  legacyComponents : Option (List (String × Nat))
  gltfIndex : Option Nat
  animations : Option Nat
deriving DecidableEq, Repr

/-- Flat data of a produced a-entity: its identity, class name, the baked
transform of its THREE.Group wrapper, the group name/uuid/animations taken
from the node, and the setObject3D payload keys. -/
structure AEntityData where
  entityId : Nat
  className : String
  position : Vec3
  rotationOrder : String
  orientation : Quat
  scale : Vec3
  groupName : String
  groupUuid : Nat
  groupAnimations : Option Nat
  payloadKey : String
  navMeshPayload : Bool
deriving DecidableEq, Repr

mutual

inductive GNode where
  | node : GNodeData → List GNode → GNode

inductive AEntity where
  | mk : AEntityData → GNode → List AEntity → AEntity

end

def GNode.dataOf : GNode → GNodeData
  | GNode.node d _ => d

def GNode.childrenOf : GNode → List GNode
  | GNode.node _ cs => cs

def AEntity.dataOf : AEntity → AEntityData
  | AEntity.mk d _ _ => d

def AEntity.payloadNode : AEntity → GNode
  | AEntity.mk _ n _ => n

def AEntity.childEntities : AEntity → List AEntity
  | AEntity.mk _ _ es => es

/-- Outcome of inflating one node: either an a-entity was built (and the
mutated node lives inside it as the setObject3D payload), or no entity was
needed and the mutated node stays a plain child of its parent. -/
inductive InflateResult where
  | entity : AEntity → InflateResult
  | plain : GNode → InflateResult

def InflateResult.isEntity : InflateResult → Bool
  | InflateResult.entity _ => true
  | InflateResult.plain _ => false

/-- JS: getHubsComponents(node), lines 1080-1090: the MOZ extension block if
present, else the HUBS one, else the legacy userData.components. -/
def getHubsComponents (d : GNodeData) : Option (List (String × Nat)) :=
  let fromExt :=
    match d.gltfExtensions with
    | some e =>
      match e.mozHubsComponents with
      | some c => some c
      | none => e.hubsComponents
    | none => none
  match fromExt with
  | some c => some c
  | none => d.legacyComponents

/-- Legacy avatar node renames performed at the top of inflateEntities
(lines 1100-1106). -/
def renameLegacy (d : GNodeData) : GNodeData :=
  if d.name = "Chest" then { d with name := "Spine" }
  else if d.name = "Root Scene" then { d with name := "AvatarRoot" }
  else if d.name = "Bot_Skinned" then { d with name := "AvatarMesh" }
  else d

/-- Characters kept by .replace(/[^\w-]/g, "") - ASCII word characters and
the hyphen. -/
def classNameChar (c : Char) : Bool :=
  (c ≥ 'a' && c ≤ 'z') || (c ≥ 'A' && c ≤ 'Z') || (c ≥ '0' && c ≤ '9') || c = '_' || c = '-'

def sanitizeClassName (s : String) : String :=
  String.mk (s.toList.filter classNameChar)

/-- JS String.prototype.toLowerCase restricted to ASCII (node.type values are
ASCII identifiers like Object3D, Mesh, Group). -/
def jsToLower (s : String) : String :=
  String.mk (s.toList.map Char.toLower)

structure InflateState where
  fresh : Nat
  indexToEntityMap : List (Nat × Nat)
deriving DecidableEq, Repr

mutual

/-- JS: inflateEntities(indexToEntityMap, node, templates, isRoot,
modelToWorldScale).  The templates object is modelled by its declared name
set; entity ids and regenerated uuids are drawn from the fresh counter of the
threaded state. -/
def inflateEntities (st : InflateState) (node : GNode) (templates : List String)
    (isRoot : Bool) (modelToWorldScale : ℚ) : InflateState × InflateResult :=
  match node with
  | GNode.node d0 children0 =>
    let d := renameLegacy d0
    -- inflate subtrees first; children are visited with isRoot and
    -- modelToWorldScale at their defaults (false, 1)
    let (st1, plainChildren, childEntities) := inflateChildren st children0 templates
    let entityComponents := getHubsComponents d
    let nodeHasBehavior := entityComponents.isSome || templates.contains d.name
    if !nodeHasBehavior && childEntities.isEmpty && !isRoot then
      (st1, InflateResult.plain (GNode.node d plainChildren))
    else
      let className := sanitizeClassName (if d.name = "" then toString d.uuid else d.name)
      -- AFRAME expects YXZ rotations: normalize via setFromQuaternion
      let d1 := if d.rotationOrder ≠ "YXZ" then { d with rotationOrder := "YXZ" } else d
      let entityId := st1.fresh
      let newUuid := st1.fresh + 1
      let st2 : InflateState := { st1 with fresh := st1.fresh + 2 }
      -- node.matrix.identity().decompose(...): position zero, identity
      -- orientation (order kept), unit scale; uuid regenerated after the
      -- group took the original one; matrixAutoUpdate disabled
      let dReset := { d1 with
        position := Vec3.zero
        quaternion := Quat.identityQ
        scale := Vec3.one
        matrixAutoUpdate := false
        uuid := newUuid }
      let navMesh :=
        match entityComponents with
        | some c => (c.map Prod.fst).contains "nav-mesh"
        | none => false
      let eData : AEntityData := {
        entityId := entityId
        className := className
        position := d1.position
        rotationOrder := d1.rotationOrder
        orientation := d1.quaternion
        scale := d1.scale.mulScalar modelToWorldScale
        groupName := d1.name
        groupUuid := d1.uuid
        groupAnimations := d1.animations
        payloadKey := jsToLower d1.nodeType
        navMeshPayload := navMesh }
      let st3 :=
        match d1.gltfIndex with
        | some gi => { st2 with indexToEntityMap := aset st2.indexToEntityMap gi entityId }
        | none => st2
      (st3, InflateResult.entity (AEntity.mk eData (GNode.node dReset plainChildren) childEntities))

/-- Sequential inflation of a child list, collecting the children that
produced entities separately from those that stayed plain nodes (setObject3D
reparents an entity-producing child under its group, removing it from the
original parent). -/
def inflateChildren (st : InflateState) (cs : List GNode) (templates : List String) :
    InflateState × List GNode × List AEntity :=
  match cs with
  | [] => (st, [], [])
  | c :: rest =>
    let (st1, r) := inflateEntities st c templates false 1
    let (st2, restPlain, restEntities) := inflateChildren st1 rest templates
    match r with
    | InflateResult.entity e => (st2, restPlain, e :: restEntities)
    | InflateResult.plain n => (st2, n :: restPlain, restEntities)

end

def InflateResult.entityD : InflateResult → Option AEntityData
  | InflateResult.entity e => some e.dataOf
  | InflateResult.plain _ => none

def InflateResult.payloadD : InflateResult → Option GNodeData
  | InflateResult.entity e => some e.payloadNode.dataOf
  | InflateResult.plain _ => none

/-- Specification-side predicate for the theorems below: the node itself
carries behavior - extension-metadata components, or a declared template
matching its (legacy-renamed) name. -/
def nodeBehaviorB (templates : List String) (d : GNodeData) : Bool :=
  (getHubsComponents (renameLegacy d)).isSome || templates.contains (renameLegacy d).name

mutual

/-- Specification-side predicate: some node of this subtree carries
behavior. -/
def subtreeQualifies (templates : List String) : GNode → Bool
  | GNode.node d cs => nodeBehaviorB templates d || listQualifies templates cs

def listQualifies (templates : List String) : List GNode → Bool
  | [] => false
  | c :: rest => subtreeQualifies templates c || listQualifies templates rest

end

/-! ### The media-image texture acquisition flow (component media-image,
update(), lines 767-829) as a small-step machine

The module-level textureCache and inflightTextures maps plus the components
form the state.  Await points split update() into segments: settling a decode
resumes the registered continuations in promise-registration order (the
starter first), each running without interleaving, exactly as the single
microtask queue does.  An update event carries the new data.src (set by the
framework before update runs) and oldData.src.  The mesh/geometry tail of
update() (lines 831-866) and remove() do not affect the cache claims made
here and are not modelled. -/

/-- The shared error texture (module level, lines 268-275). -/
def errorTexture : Texture :=
  { texId := 0, isVideoEl := false, hasHls := false
    width := 1, height := 1, videoWidth := 0, videoHeight := 0 }

/-- One media-image component: its current data, whether its element is still
attached (this.el.parentNode), the currentSrcIsRetained flag, and the
this.mesh.map value read at line 777 (THREE.Mesh has no map property, so it
stays none at runtime; the branch is embedded nevertheless). -/
structure ImgComp where
  dataSrc : String
  contentType : String
  parentAttached : Bool
  currentSrcIsRetained : Bool
  meshMap : Option Nat
deriving DecidableEq, Repr

structure TexAwaiter where
  comp : Nat
  src : String
  starter : Bool
deriving DecidableEq, Repr

inductive TexLoadStatus where
  | pending
  | succeeded (t : Texture)
  | failed
deriving DecidableEq, Repr

structure TexLoad where
  src : String
  status : TexLoadStatus
  awaiters : List TexAwaiter
deriving DecidableEq, Repr

/-- Dimensions and flags of the texture produced when a decode settles
successfully; the texture object identity is allocated by the machine. -/
structure TexSpec where
  isVideoEl : Bool
  hasHls : Bool
  width : ℚ
  height : ℚ
  videoWidth : ℚ
  videoHeight : ℚ
deriving DecidableEq, Repr

def mkTexture (id : Nat) (sp : TexSpec) : Texture :=
  { texId := id, isVideoEl := sp.isVideoEl, hasHls := sp.hasHls
    width := sp.width, height := sp.height
    videoWidth := sp.videoWidth, videoHeight := sp.videoHeight }

structure TexSys where
  cache : TexCacheT
  inflight : List (String × Nat)
  loads : List (Nat × TexLoad)
  nextId : Nat
  startedLoads : List (String × Nat)
  comps : List ImgComp
  observedLog : List (Nat × Nat)
  erroredComps : List Nat
  crashedComps : List Nat
deriving DecidableEq, Repr

/-- JS String.prototype.includes. -/
def jsIncludes (s sub : String) : Bool :=
  decide (sub.toList <:+: s.toList)

/-- JS String.prototype.startsWith. -/
def jsStartsWith (s pre : String) : Bool :=
  decide (pre.toList <+: s.toList)

/-- The stale check and observation tail shared by the uncached paths
(lines 814-824): when data.src moved on or the element was removed, the
fresh retain is released and the result discarded; otherwise the component
records the texture as its current source. -/
def texStaleCheck (s : TexSys) (r : Nat) (c : ImgComp) (src : String) (texId : Nat) : TexSys :=
  if c.dataSrc ≠ src || !c.parentAttached then
    let (cache2, _acts, _err) := TextureCache.release s.cache src
    { s with cache := cache2 }
  else
    { s with
      comps := s.comps.set r { c with currentSrcIsRetained := true }
      observedLog := s.observedLog ++ [(r, texId)] }

/-- Resume one awaiter of a settled decode: the starter continuation deletes
the in-flight marker and stores the texture (lines 808-811), a non-starter
continuation retains the fresh cache entry (lines 797-798); both then run the
stale check.  On rejection both land in the catch (lines 825-829). -/
def texResume (s : TexSys) (outcome : Option Texture) (aw : TexAwaiter) : TexSys :=
  match s.comps.get? aw.comp with
  | none => s
  | some c =>
    match outcome with
    | some t =>
      if aw.starter then
        let s1 := { s with inflight := adelete s.inflight aw.src }
        match TextureCache.set s1.cache aw.src t with
        | some (cache2, item) =>
          texStaleCheck { s1 with cache := cache2 } aw.comp c aw.src item.texture.texId
        | none => s1
      else
        match TextureCache.retain s.cache aw.src with
        | some (cache2, item) =>
          texStaleCheck { s with cache := cache2 } aw.comp c aw.src item.texture.texId
        | none => { s with crashedComps := s.crashedComps ++ [aw.comp] }
    | none =>
      { s with
        comps := s.comps.set aw.comp { c with currentSrcIsRetained := false }
        erroredComps := s.erroredComps ++ [aw.comp] }

/-- A decode promise settles: the load record is marked, then the registered
continuations resume in order.  The in-flight marker is only touched by the
starter continuation (line 810) - on rejection that line is never reached. -/
def texSettle (s : TexSys) (loadId : Nat) (outcome : Option TexSpec) : TexSys :=
  match alookup s.loads loadId with
  | none => s
  | some lr =>
    match lr.status with
    | TexLoadStatus.pending =>
      match outcome with
      | some sp =>
        let t := mkTexture s.nextId sp
        let s1 := { s with
          nextId := s.nextId + 1
          loads := aset s.loads loadId { lr with status := TexLoadStatus.succeeded t } }
        lr.awaiters.foldl (fun acc aw => texResume acc (some t) aw) s1
      | none =>
        let s1 := { s with loads := aset s.loads loadId { lr with status := TexLoadStatus.failed } }
        lr.awaiters.foldl (fun acc aw => texResume acc none aw) s1
    | _ => s
  
/-- Lines 777-784 of update(): swap out the previous material map and release
the previously retained src.  THREE.Mesh has no map property, so this.mesh.map
(the meshMap field) is always none at runtime and the branch never fires; it
is embedded nevertheless. -/
def texReleasePrev (s : TexSys) (r : Nat) (c : ImgComp) (oldSrc : String) : TexSys × ImgComp :=
  match c.meshMap with
  | some m =>
    if c.dataSrc ≠ oldSrc then
      let c2 := { c with meshMap := none }
      if m ≠ errorTexture.texId then
        let (cache2, _acts, _e) := TextureCache.release s.cache oldSrc
        let c3 := { c2 with currentSrcIsRetained := false }
        ({ s with cache := cache2, comps := s.comps.set r c3 }, c3)
      else ({ s with comps := s.comps.set r c2 }, c2)
    else (s, c)
  | none => (s, c)

/-- Lines 786-824 of update(): take the branch - cache hit, the "error"
placeholder, joining an in-flight decode, or starting a decode.  Joining a
decode whose promise already settled resumes immediately. -/
def texAcquire (s : TexSys) (r : Nat) (c : ImgComp) : TexSys :=
  let src := c.dataSrc
  if TextureCache.has s.cache src then
    if c.currentSrcIsRetained then
      match alookup s.cache src with
      | some item =>
        { s with
          comps := s.comps.set r { c with currentSrcIsRetained := true }
          observedLog := s.observedLog ++ [(r, item.texture.texId)] }
      | none => s
    else
      match TextureCache.retain s.cache src with
      | some (cache2, item) =>
        { s with
          cache := cache2
          comps := s.comps.set r { c with currentSrcIsRetained := true }
          observedLog := s.observedLog ++ [(r, item.texture.texId)] }
      | none => { s with crashedComps := s.crashedComps ++ [r] }
  else if src = "error" then
    -- errorCacheItem, then the shared stale check
    texStaleCheck s r c src errorTexture.texId
  else
    match alookup s.inflight src with
    | some lid =>
      match alookup s.loads lid with
      | some lr =>
        match lr.status with
        | TexLoadStatus.pending =>
          let lr2 := { lr with awaiters := lr.awaiters ++ [⟨r, src, false⟩] }
          { s with loads := aset s.loads lid lr2 }
        | TexLoadStatus.succeeded t => texResume s (some t) ⟨r, src, false⟩
        | TexLoadStatus.failed => texResume s none ⟨r, src, false⟩
      | none => s
    | none =>
      -- content-type dispatch (lines 801-807): gif and other images both
      -- start a decode; anything else throws into the catch
      if jsIncludes c.contentType "image/gif" || jsStartsWith c.contentType "image/" then
        let lid := s.nextId
        { s with
          nextId := lid + 1
          startedLoads := s.startedLoads ++ [(src, lid)]
          inflight := aset s.inflight src lid
          loads := aset s.loads lid { src := src, status := TexLoadStatus.pending, awaiters := [⟨r, src, true⟩] }
          comps := s.comps }
      else
        { s with erroredComps := s.erroredComps ++ [r] }

/-- The synchronous part of media-image update() for component r (lines
767-829), after the framework stored newSrc in this.data.src. -/
def texUpdate (s : TexSys) (r : Nat) (newSrc oldSrc : String) : TexSys :=
  match s.comps.get? r with
  | none => s
  | some c0 =>
    let c := { c0 with dataSrc := newSrc }
    let s := { s with comps := s.comps.set r c }
    if newSrc = "" then s
    else
      let (s2, c2) := texReleasePrev s r c oldSrc
      texAcquire s2 r c2

inductive TexEvent where
  | update (r : Nat) (newSrc oldSrc : String)
  | settle (loadId : Nat) (outcome : Option TexSpec)
deriving DecidableEq, Repr

def texStep (s : TexSys) (e : TexEvent) : TexSys :=
  match e with
  | TexEvent.update r newSrc oldSrc => texUpdate s r newSrc oldSrc
  | TexEvent.settle lid outcome => texSettle s lid outcome

def texRun (s : TexSys) (events : List TexEvent) : TexSys :=
  events.foldl texStep s

def initImgComp (contentType : String) : ImgComp :=
  { dataSrc := "", contentType := contentType, parentAttached := true
    currentSrcIsRetained := false, meshMap := none }

/-- Fresh module state: empty caches and maps; texture/load ids start above
the error texture id 0. -/
def texInit (comps : List ImgComp) : TexSys :=
  { cache := [], inflight := [], loads := [], nextId := 1
    startedLoads := [], comps := comps
    observedLog := [], erroredComps := [], crashedComps := [] }

/-- Registry invariant relating the in-flight map and the load records: every
pending load is reachable from the in-flight map under its key, load ids are
unique and below the allocation counter, awaiters await the key of their
load, and every in-flight entry points to a load for its key. -/
structure TexInv (s : TexSys) : Prop where
  pendingInflight : ∀ lid lr, alookup s.loads lid = some lr →
    lr.status = TexLoadStatus.pending → alookup s.inflight lr.src = some lid
  keysNodup : (s.loads.map Prod.fst).Nodup
  keysLt : ∀ p ∈ s.loads, p.1 < s.nextId
  awaiterSrc : ∀ p ∈ s.loads, ∀ aw ∈ p.2.awaiters, aw.src = p.2.src
  inflightLoads : ∀ kv ∈ s.inflight, ∃ lr, alookup s.loads kv.2 = some lr ∧ lr.src = kv.1

/-! ### The gltf-model-plus / loadModel flow (lines 1073-1078, 1320-1345,
1401-1500) as a small-step machine

The module-level gltfCache and inflightGltfs maps, the consumers, and logs
of retain/release calls, returned clones and attached inflated trees form
the state.  loadGLTF itself (network + parse) is the pending computation; a
settle event supplies the shape of the parsed scene and the machine
allocates fresh object identities for it, as the parser builds brand-new
THREE objects.  applySrc is split at its await points exactly as the
microtask queue interleaves it. -/

mutual

/-- cloneObject3D (imported from three-utils): a deep clone - every node of
the result is a brand-new object, here relabelled with fresh ids from the
counter; structure is preserved. -/
def cloneObject3D : SceneNode → Nat → SceneNode × Nat
  | SceneNode.mk _ cs, fresh =>
    let (cs2, f2) := cloneSceneList cs (fresh + 1)
    (SceneNode.mk fresh cs2, f2)

def cloneSceneList : List SceneNode → Nat → List SceneNode × Nat
  | [], f => ([], f)
  | c :: rest, f =>
    let (c2, f2) := cloneObject3D c f
    let (rest2, f3) := cloneSceneList rest f2
    (c2 :: rest2, f3)

end

/-- JS: cloneGltf(gltf), lines 1073-1078: animations is gltf.scene.animations
(the same array object, shared), the scene is deep-cloned. -/
def cloneGltf (g : Gltf) (fresh : Nat) : Gltf × Nat :=
  let (scene2, f2) := cloneObject3D g.scene fresh
  ({ scene := scene2, sceneAnimations := g.sceneAnimations }, f2)

/-- One gltf-model-plus consumer: its staleness token this.lastSrc, the
data.inflate flag, and the src key of the currently attached inflated tree
(this.inflatedEl), if any. -/
structure GConsumer where
  lastSrc : Option String
  inflate : Bool
  inflatedEl : Option String
deriving DecidableEq, Repr

/-- A clone handed back by loadModel: which consumer asked, for which key,
the returned gltf and the gltf it was cloned from. -/
structure GOutput where
  consumer : Nat
  srcKey : String
  returned : Gltf
  srcGltf : Gltf

structure GAwaiter where
  consumer : Nat
  src : String
  savedLast : Option String
  starter : Bool
deriving DecidableEq, Repr

inductive GltfLoadStatus where
  | pending
  | succeeded (g : Gltf)
  | failed

structure GltfLoad where
  src : String
  status : GltfLoadStatus
  awaiters : List GAwaiter

structure GTickWaiter where
  consumer : Nat
  src : String
  savedLast : Option String
deriving DecidableEq, Repr

structure GltfSys where
  cache : GltfCacheT
  inflight : List (String × Nat)
  loads : List (Nat × GltfLoad)
  nextId : Nat
  startedLoads : List (String × Nat)
  consumers : List GConsumer
  outputs : List GOutput
  attachedEls : List (Nat × String)
  tickWaiters : List GTickWaiter
  retainEv : List String
  releaseEv : List String
  modelErrors : List Nat

/-- gltfCache.release with event logging: a release that found (and
decremented) an entry is logged; releasing an absent key only logs the
console error. -/
def gltfRelease (s : GltfSys) (src : String) : GltfSys :=
  let (cache2, _nodes, errored) := GLTFCache.release s.cache src
  if errored then { s with cache := cache2 }
  else { s with cache := cache2, releaseEv := s.releaseEv ++ [src] }

def gltfRetain (s : GltfSys) (src : String) : GltfSys × Option GltfItem :=
  match GLTFCache.retain s.cache src with
  | none => (s, none)
  | some (cache2, item) =>
    ({ s with cache := cache2, retainEv := s.retainEv ++ [src] }, some item)

/-- gltfCache.set counts as a retain: set stores the entry at count 0 and
retains it. -/
def gltfSet (s : GltfSys) (src : String) (g : Gltf) : GltfSys × Option GltfItem :=
  match GLTFCache.set s.cache src g with
  | none => (s, none)
  | some (cache2, item) =>
    ({ s with cache := cache2, retainEv := s.retainEv ++ [src] }, some item)

/-- this.disposeLastInflatedEl() (lines 1502-1524): the attached inflated
tree, if any, is removed from the document as a unit. -/
def gltfDisposeLastInflated (s : GltfSys) (i : Nat) (c : GConsumer) : GltfSys × GConsumer :=
  match c.inflatedEl with
  | some _ =>
    ({ s with attachedEls := s.attachedEls.filter (fun p => decide ¬(p.1 = i)) },
      { c with inflatedEl := none })
  | none => (s, c)

/-- The tail of applySrc (lines 1474-1494): release the previous src, set the
object3D and emit model-loaded. -/
def gltfFinish (s : GltfSys) (i : Nat) (c : GConsumer) (savedLast : Option String) : GltfSys :=
  let s2 :=
    match savedLast with
    | some l => gltfRelease s l
    | none => s
  { s2 with consumers := s2.consumers.set i c }

/-- The continuation of applySrc after loadModel resolved (lines 1419-1465):
stale check against this.lastSrc, teardown of the previously inflated tree,
then - when inflating - attach the new tree (inflateEntities with isRoot true
always yields the root entity) and await nextTick; otherwise run the tail
directly. -/
def gltfAfterLoad (s : GltfSys) (i : Nat) (c : GConsumer) (src : String)
    (savedLast : Option String) : GltfSys :=
  if some src ≠ c.lastSrc then s
  else
    let (s1, c1) := gltfDisposeLastInflated s i c
    if c1.inflate then
      let c2 := { c1 with inflatedEl := some src }
      { s1 with
        attachedEls := s1.attachedEls ++ [(i, src)]
        consumers := s1.consumers.set i c2
        tickWaiters := s1.tickWaiters ++ [⟨i, src, savedLast⟩] }
    else
      gltfFinish s1 i c1 savedLast

/-- nextTick resolves for the oldest pending continuation (lines 1457-1464):
re-check staleness - a stale resume returns leaving the attached tree and the
retain in place - else inflate components, attach templates and finish. -/
def gltfTick (s : GltfSys) : GltfSys :=
  match s.tickWaiters with
  | [] => s
  | tw :: rest =>
    let s1 := { s with tickWaiters := rest }
    match s1.consumers.get? tw.consumer with
    | none => s1
    | some c =>
      if some tw.src ≠ c.lastSrc then s1
      else gltfFinish s1 tw.consumer c tw.savedLast

/-- Resume one awaiter of a settled loadGLTF (loadModel lines 1329-1340 and
the surrounding applySrc): the starter deletes the in-flight marker and
stores the gltf in the cache; a joiner retains it; both return a fresh clone.
On rejection applySrc lands in its catch (lines 1495-1499) which releases
src and emits model-error. -/
def gltfResume (s : GltfSys) (outcome : Option Gltf) (aw : GAwaiter) : GltfSys :=
  match s.consumers.get? aw.consumer with
  | none => s
  | some c =>
    match outcome with
    | some g =>
      if aw.starter then
        let s1 := { s with inflight := adelete s.inflight aw.src }
        match gltfSet s1 aw.src g with
        | (s2, some _item) =>
          let (clone, f2) := cloneGltf g s2.nextId
          let s3 := { s2 with
            nextId := f2
            outputs := s2.outputs ++ [⟨aw.consumer, aw.src, clone, g⟩] }
          gltfAfterLoad s3 aw.consumer c aw.src aw.savedLast
        | (s2, none) => s2
      else
        match gltfRetain s aw.src with
        | (s1, some _item) =>
          let (clone, f2) := cloneGltf g s1.nextId
          let s2 := { s1 with
            nextId := f2
            outputs := s1.outputs ++ [⟨aw.consumer, aw.src, clone, g⟩] }
          gltfAfterLoad s2 aw.consumer c aw.src aw.savedLast
        | (s1, none) => s1
    | none =>
      let s1 := gltfRelease s aw.src
      { s1 with modelErrors := s1.modelErrors ++ [aw.consumer] }

/-- A loadGLTF promise settles.  On success the parser delivers a brand-new
scene graph (fresh object identities for the given shape) and a fresh
animations array which loadGLTF stores on the scene (line 1315); then the
registered continuations resume in registration order.  On rejection the
in-flight marker stays: line 1337 is after the await. -/
def gltfSettle (s : GltfSys) (loadId : Nat) (outcome : Option SceneNode) : GltfSys :=
  match alookup s.loads loadId with
  | none => s
  | some lr =>
    match lr.status with
    | GltfLoadStatus.pending =>
      match outcome with
      | some shape =>
        let (scene, f2) := cloneObject3D shape s.nextId
        let g : Gltf := { scene := scene, sceneAnimations := f2 }
        let s1 := { s with
          nextId := f2 + 1
          loads := aset s.loads loadId { lr with status := GltfLoadStatus.succeeded g } }
        lr.awaiters.foldl (fun acc aw => gltfResume acc (some g) aw) s1
      | none =>
        let s1 := { s with loads := aset s.loads loadId { lr with status := GltfLoadStatus.failed } }
        lr.awaiters.foldl (fun acc aw => gltfResume acc none aw) s1
    | _ => s

/-- applySrc(src) for consumer i (lines 1401-1421) together with the
synchronous prefix of loadModel(src, contentType, useCache = true)
(lines 1324-1341): staleness token update, then cache hit / join in-flight /
begin load.  Awaiting an already-settled promise resumes immediately. -/
def gltfApplySrc (s : GltfSys) (i : Nat) (src : String) : GltfSys :=
  match s.consumers.get? i with
  | none => s
  | some c0 =>
    if some src = c0.lastSrc then s
    else
      let savedLast := c0.lastSrc
      let c := { c0 with lastSrc := some src }
      let s := { s with consumers := s.consumers.set i c }
      if src = "" then
        let (s1, c1) := gltfDisposeLastInflated s i c
        { s1 with consumers := s1.consumers.set i c1 }
      else
        if GLTFCache.has s.cache src then
          match gltfRetain s src with
          | (s1, some item) =>
            let (clone, f2) := cloneGltf item.gltf s1.nextId
            let s2 := { s1 with
              nextId := f2
              outputs := s1.outputs ++ [⟨i, src, clone, item.gltf⟩] }
            gltfAfterLoad s2 i c src savedLast
          | (s1, none) => s1
        else
          match alookup s.inflight src with
          | some lid =>
            match alookup s.loads lid with
            | some lr =>
              match lr.status with
              | GltfLoadStatus.pending =>
                let lr2 := { lr with awaiters := lr.awaiters ++ [⟨i, src, savedLast, false⟩] }
                { s with loads := aset s.loads lid lr2 }
              | GltfLoadStatus.succeeded g => gltfResume s (some g) ⟨i, src, savedLast, false⟩
              | GltfLoadStatus.failed => gltfResume s none ⟨i, src, savedLast, false⟩
            | none => s
          | none =>
            let lid := s.nextId
            let newLoad : GltfLoad :=
              { src := src, status := GltfLoadStatus.pending, awaiters := [⟨i, src, savedLast, true⟩] }
            { s with
              nextId := lid + 1
              startedLoads := s.startedLoads ++ [(src, lid)]
              inflight := aset s.inflight src lid
              loads := aset s.loads lid newLoad }

inductive GEvent where
  | applySrc (i : Nat) (src : String)
  | settle (loadId : Nat) (outcome : Option SceneNode)
  | tick

def gltfStep (s : GltfSys) (e : GEvent) : GltfSys :=
  match e with
  | GEvent.applySrc i src => gltfApplySrc s i src
  | GEvent.settle lid outcome => gltfSettle s lid outcome
  | GEvent.tick => gltfTick s

def gltfRun (s : GltfSys) (events : List GEvent) : GltfSys :=
  events.foldl gltfStep s

def initGConsumer (inflate : Bool) : GConsumer :=
  { lastSrc := none, inflate := inflate, inflatedEl := none }

def gltfInit (consumers : List GConsumer) : GltfSys :=
  { cache := [], inflight := [], loads := [], nextId := 1
    startedLoads := [], consumers := consumers, outputs := []
    attachedEls := [], tickWaiters := [], retainEv := [], releaseEv := []
    modelErrors := [] }

/-! ### Identity tracking for the clone-freshness claims -/

/-- All scene-node ids of the clones handed back by loadModel. -/
def gltfOutIds (s : GltfSys) : List Nat :=
  (s.outputs.map (fun o => sceneNodeIds o.returned.scene)).flatten

/-- All scene-node ids owned by the cache. -/
def gltfCacheIds (s : GltfSys) : List Nat :=
  (s.cache.map (fun p => sceneNodeIds p.2.gltf.scene)).flatten

def gltfLoadStatusIds : GltfLoadStatus → List Nat
  | GltfLoadStatus.succeeded g => sceneNodeIds g.scene
  | _ => []

/-- All scene-node ids held by settled load records. -/
def gltfLoadIds (s : GltfSys) : List Nat :=
  (s.loads.map (fun p => gltfLoadStatusIds p.2.status)).flatten

/-- Ids owned internally - by the cache or by load records. -/
def gltfIntIds (s : GltfSys) : List Nat :=
  gltfCacheIds s ++ gltfLoadIds s

/-- Allocation invariant: clone ids handed out are distinct, all ids are below
the allocator, no handed-out id is owned internally, and every output shares
its animations with the gltf it was cloned from. -/
structure GltfIdInv (s : GltfSys) : Prop where
  outNodup : (gltfOutIds s).Nodup
  outBound : ∀ i ∈ gltfOutIds s, i < s.nextId
  intBound : ∀ i ∈ gltfIntIds s, i < s.nextId
  outDisjInt : ∀ i ∈ gltfOutIds s, i ∉ gltfIntIds s
  animShared : ∀ o ∈ s.outputs, o.returned.sceneAnimations = o.srcGltf.sceneAnimations

/-- One machine step only appends freshly allocated clone ids to the outputs
and lets internal ids either persist or be freshly allocated (never taken
from the new clone block). -/
def GltfStepOk (s s2 : GltfSys) : Prop :=
  ∃ freshO : List Nat,
    s.nextId ≤ s2.nextId ∧
    gltfOutIds s2 = gltfOutIds s ++ freshO ∧
    freshO.Nodup ∧
    (∀ i ∈ freshO, s.nextId ≤ i ∧ i < s2.nextId) ∧
    (∀ i ∈ gltfIntIds s2, i ∈ gltfIntIds s ∨
      (s.nextId ≤ i ∧ i < s2.nextId ∧ i ∉ freshO)) ∧
    (∀ o ∈ s2.outputs, o ∈ s.outputs ∨
      o.returned.sceneAnimations = o.srcGltf.sceneAnimations)

/-! ## Theorems -/

theorem alookup_aset_self {κ α : Type} [DecidableEq κ] (m : List (κ × α)) (k : κ) (v : α) :
    alookup (aset m k v) k = some v := by
  induction m with
  | nil => simp [aset, alookup]
  | cons p rest ih =>
    obtain ⟨k1, w⟩ := p
    by_cases h : k1 = k
    · simp [aset, h, alookup]
    · simp [aset, h, alookup, ih]

theorem alookup_aset_ne {κ α : Type} [DecidableEq κ] (m : List (κ × α)) (k k2 : κ) (v : α)
    (hne : k ≠ k2) : alookup (aset m k v) k2 = alookup m k2 := by
  induction m with
  | nil => simp [aset, alookup, hne]
  | cons p rest ih =>
    obtain ⟨k1, w⟩ := p
    by_cases h : k1 = k
    · subst h
      simp [aset, alookup, hne]
    · simp [aset, h, alookup, ih]

theorem alookup_adelete_self {κ α : Type} [DecidableEq κ] (m : List (κ × α)) (k : κ) :
    alookup (adelete m k) k = none := by
  induction m with
  | nil => simp [adelete, alookup]
  | cons p rest ih =>
    obtain ⟨k1, w⟩ := p
    by_cases h : k1 = k
    · simpa [adelete, h] using ih
    · simpa [adelete, h, alookup] using ih

theorem alookup_adelete_ne {κ α : Type} [DecidableEq κ] (m : List (κ × α)) (k k2 : κ)
    (hne : k ≠ k2) : alookup (adelete m k) k2 = alookup m k2 := by
  induction m with
  | nil => simp [adelete, alookup]
  | cons p rest ih =>
    obtain ⟨k1, w⟩ := p
    by_cases h : k1 = k
    · subst h
      simp [adelete, alookup, hne, ih]
    · by_cases h2 : k1 = k2 <;> simp [adelete, h, alookup, h2, ih, Ne.symm hne]


/-! ### Claim C2 - release at reference count 1 disposes exactly once -/

/-- C2: for a key cached with reference count 1, release drives the count to
0: the entry is deleted so has is false afterwards, and the type-specific
disposal routine runs exactly once for the entry - disposeTexture for
textures (pausing/clearing/reloading a video element exactly once each, one
GPU dispose) and the recursive disposeNode traversal of the whole scene for
models. -/
theorem release_count_one_disposes (tc : TexCacheT) (gc : GltfCacheT) (kt kg : String)
    (it : CacheItem) (git : GltfItem)
    (htc : alookup tc kt = some it) (hc1 : it.count = 1)
    (hgc : alookup gc kg = some git) (hg1 : git.count = 1) :
    TextureCache.release tc kt = (adelete tc kt, disposeTexture it.texture, false) ∧
    TextureCache.has (TextureCache.release tc kt).1 kt = false ∧
    (TextureCache.release tc kt).2.1.count TexAction.disposeTex = 1 ∧
    (it.texture.isVideoEl = true →
      (TextureCache.release tc kt).2.1.count TexAction.pause = 1 ∧
      (TextureCache.release tc kt).2.1.count TexAction.clearSrc = 1 ∧
      (TextureCache.release tc kt).2.1.count TexAction.load = 1) ∧
    GLTFCache.release gc kg = (adelete gc kg, sceneNodeIds git.gltf.scene, false) ∧
    GLTFCache.has (GLTFCache.release gc kg).1 kg = false := by
  have hrel : TextureCache.release tc kt = (adelete tc kt, disposeTexture it.texture, false) := by
    simp [TextureCache.release, htc, hc1]
  have hgrel : GLTFCache.release gc kg = (adelete gc kg, sceneNodeIds git.gltf.scene, false) := by
    simp [GLTFCache.release, hgc, hg1]
  refine ⟨hrel, ?_, ?_, ?_, hgrel, ?_⟩
  · rw [hrel]
    simp [TextureCache.has, ahas, alookup_adelete_self]
  · rw [hrel]
    cases hv : it.texture.isVideoEl <;> cases hh : it.texture.hasHls <;>
      simp [disposeTexture, hv, hh, List.count_cons, List.count_append]
  · intro hvid
    rw [hrel]
    cases hh : it.texture.hasHls <;>
      simp [disposeTexture, hvid, hh, List.count_cons, List.count_append]
  · rw [hgrel]
    simp [GLTFCache.has, ahas, alookup_adelete_self]

/-- Witness for C2 at a concrete video texture cache and a concrete model
cache, both holding their key at count 1. -/
theorem release_count_one_disposes_witness :
    TextureCache.has
      (TextureCache.release
        [("v.mp4", { texture := { texId := 3, isVideoEl := true, hasHls := true,
                                  width := 4, height := 3, videoWidth := 4, videoHeight := 3 },
                     ratioHW := 3 / 4, count := 1 })] "v.mp4").1 "v.mp4" = false ∧
    (TextureCache.release
        [("v.mp4", { texture := { texId := 3, isVideoEl := true, hasHls := true,
                                  width := 4, height := 3, videoWidth := 4, videoHeight := 3 },
                     ratioHW := 3 / 4, count := 1 })] "v.mp4").2.1.count TexAction.disposeTex = 1 ∧
    GLTFCache.release
        [("m.glb", { gltf := { scene := SceneNode.mk 7 [SceneNode.mk 8 [], SceneNode.mk 9 []],
                               sceneAnimations := 5 }, count := 1 })] "m.glb" =
      ([], [7, 8, 9], false) := by
  have h := release_count_one_disposes
    [("v.mp4", { texture := { texId := 3, isVideoEl := true, hasHls := true,
                              width := 4, height := 3, videoWidth := 4, videoHeight := 3 },
                 ratioHW := 3 / 4, count := 1 })]
    [("m.glb", { gltf := { scene := SceneNode.mk 7 [SceneNode.mk 8 [], SceneNode.mk 9 []],
                           sceneAnimations := 5 }, count := 1 })]
    "v.mp4" "m.glb" _ _ rfl rfl rfl rfl
  refine ⟨h.2.1, h.2.2.1, ?_⟩
  rw [h.2.2.2.2.1]
  rfl

/-! ### Claim C9 - releasing an absent key is a logged no-op -/

/-- C9: releasing a key absent from the cache logs the error and returns,
leaving the table unchanged and invoking no disposal, for both the texture
cache and the gltf cache. -/
theorem release_absent_is_noop (tc : TexCacheT) (gc : GltfCacheT) (kt kg : String)
    (h1 : TextureCache.has tc kt = false) (h2 : GLTFCache.has gc kg = false) :
    TextureCache.release tc kt = (tc, [], true) ∧
    GLTFCache.release gc kg = (gc, [], true) := by
  have e1 : alookup tc kt = none := by
    simpa [TextureCache.has, ahas, Option.isSome_iff_exists] using h1
  have e2 : alookup gc kg = none := by
    simpa [GLTFCache.has, ahas, Option.isSome_iff_exists] using h2
  exact ⟨by simp [TextureCache.release, e1], by simp [GLTFCache.release, e2]⟩

/-- Witness for C9: a populated texture cache without key x, and an empty
gltf cache. -/
theorem release_absent_is_noop_witness :
    TextureCache.release [("a.png", { texture := errorTexture, ratioHW := 1, count := 2 })] "x" =
      ([("a.png", { texture := errorTexture, ratioHW := 1, count := 2 })], [], true) ∧
    GLTFCache.release [] "x" = ([], [], true) :=
  release_absent_is_noop
    [("a.png", { texture := errorTexture, ratioHW := 1, count := 2 })] [] "x" "x" rfl rfl

/-! ### Claim C8 - the restore-to-background clear does not cover the whole
surface -/

/-- C8 failing input: a 2-wide, 3-high animated texture on a frame with
disposal mode 2 whose delay has elapsed.  The update step does compare
elapsed time against the frame delay and advances the frame index modulo the
frame count, but the clear issued for disposal mode 2 is
clearRect(0, 0, width, width) - a 2-by-2 square - which does not clear the
entire 2-by-3 draw surface, contradicting the stated behavior. -/
theorem gifUpdate_clear_misses_surface :
    (GIFTexture.update
      { imageWidth := 2, imageHeight := 3, frames := [10, 11], delays := [5, 5],
        disposals := [2, 0], frame := 0, frameStartTime := 0, needsUpdate := false } 6).2 =
      [CanvasOp.clearRect 0 0 2 2, CanvasOp.drawImage 11 0 0 2 3] ∧
    (GIFTexture.update
      { imageWidth := 2, imageHeight := 3, frames := [10, 11], delays := [5, 5],
        disposals := [2, 0], frame := 0, frameStartTime := 0, needsUpdate := false } 6).1.frame = 1 ∧
    CanvasOp.clearRect 0 0 2 2 ≠ CanvasOp.clearRect 0 0 2 3 := by
  refine ⟨rfl, rfl, by decide⟩

/-! ### Claim C6 - migration gating, and the limit of its idempotence -/

theorem stripFirstDual_no_dual (ns : List JNode)
    (h : ∀ m ∈ ns, isDualHeightfieldNode m = false) : stripFirstDual ns = ns := by
  induction ns with
  | nil => rfl
  | cons n rest ih =>
    have hn := h n (List.mem_cons_self n rest)
    simp [stripFirstDual, hn]
    exact ih (fun m hm => h m (List.mem_cons_of_mem n hm))

theorem stripHeightfield_not_dual (n : JNode) :
    isDualHeightfieldNode (stripHeightfield n) = false := by
  rcases n with ⟨ext⟩
  rcases ext with _ | ⟨moz, hubs⟩
  · rfl
  · rcases moz with _ | c
    · rcases hubs with _ | c
      · rfl
      · simp [stripHeightfield, isDualHeightfieldNode, migrationComponents]
    · simp [stripHeightfield, isDualHeightfieldNode, migrationComponents]

theorem stripFirstDual_idem (ns : List JNode)
    (h : ns.countP (fun n => isDualHeightfieldNode n) ≤ 1) :
    stripFirstDual (stripFirstDual ns) = stripFirstDual ns := by
  induction ns with
  | nil => rfl
  | cons n rest ih =>
    by_cases hn : isDualHeightfieldNode n = true
    · have hrest : ∀ m ∈ rest, isDualHeightfieldNode m = false := by
        intro m hm
        by_contra hmne
        have hmt : isDualHeightfieldNode m = true := by
          cases hdm : isDualHeightfieldNode m
          · exact absurd hdm hmne
          · rfl
        have h2 : 2 ≤ (n :: rest).countP (fun x => isDualHeightfieldNode x) := by
          rw [List.countP_cons, if_pos hn]
          have : 1 ≤ rest.countP (fun x => isDualHeightfieldNode x) :=
            List.countP_pos_iff.mpr ⟨m, hm, hmt⟩
          omega
        omega
      simp [stripFirstDual, hn, stripHeightfield_not_dual, stripFirstDual_no_dual rest hrest]
    · have hnf : isDualHeightfieldNode n = false := by
        cases hdn : isDualHeightfieldNode n
        · rfl
        · exact absurd hdn hn
      have hle : rest.countP (fun x => isDualHeightfieldNode x) ≤ 1 := by
        rw [List.countP_cons] at h
        omega
      simp [stripFirstDual, hnf, ih hle]

theorem stripFirstDual_append (pre post : List JNode) (n : JNode)
    (hpre : ∀ m ∈ pre, isDualHeightfieldNode m = false)
    (hn : isDualHeightfieldNode n = true) :
    stripFirstDual (pre ++ n :: post) = pre ++ stripHeightfield n :: post := by
  induction pre with
  | nil => simp [stripFirstDual, hn]
  | cons p ps ihp =>
    have hp := hpre p (List.mem_cons_self p ps)
    simp [stripFirstDual, hp]
    exact ihp (fun m hm => hpre m (List.mem_cons_of_mem p hm))

/-- C6 amended: the version is read from the top-level extension metadata
(absent means 0); an asset stamped with the current version (or later) is
unchanged; below version 2 the fix-up strips the heightfield from the FIRST
node carrying both heightfield and nav-mesh (later dual nodes are left
alone), and does nothing when no such node exists; re-applying the migration
is a no-op only when at most one node is dual-tagged - with two dual nodes a
second application strips the second one as well (see the counterexample). -/
theorem runMigration_amended (j : GltfJson) :
    (j.extensions = none → getVersion j = 0) ∧
    (∀ v : Int, 2 ≤ v → runMigration v j = j) ∧
    (∀ v : Int, v < 2 → (∀ m ∈ j.nodes, isDualHeightfieldNode m = false) →
      runMigration v j = j) ∧
    (∀ v : Int, v < 2 → ∀ pre n post, j.nodes = pre ++ n :: post →
      (∀ m ∈ pre, isDualHeightfieldNode m = false) → isDualHeightfieldNode n = true →
      runMigration v j = { j with nodes := pre ++ stripHeightfield n :: post } ∧
        isDualHeightfieldNode (stripHeightfield n) = false) ∧
    (∀ v : Int, j.nodes.countP (fun n => isDualHeightfieldNode n) ≤ 1 →
      runMigration v (runMigration v j) = runMigration v j) := by
  refine ⟨?_, ?_, ?_, ?_, ?_⟩
  · intro h
    simp [getVersion, h]
  · intro v hv
    have : ¬(v < 2) := by omega
    simp [runMigration, this]
  · intro v hv hnone
    simp [runMigration, hv, stripFirstDual_no_dual j.nodes hnone]
  · intro v hv pre n post hsplit hpre hn
    refine ⟨?_, stripHeightfield_not_dual n⟩
    simp [runMigration, hv, hsplit, stripFirstDual_append pre post n hpre hn]
  · intro v hcount
    by_cases hv : v < 2
    · have hnodes2 : (runMigration v j).nodes = stripFirstDual j.nodes := by
        simp [runMigration, hv]
      simp [runMigration, hv, stripFirstDual_idem j.nodes hcount]
    · simp [runMigration, hv]

/-- Witness for the amended C6 at a version-1 asset with a single
dual-tagged node. -/
theorem runMigration_amended_witness :
    runMigration (getVersion
        { extensions := some { mozHubsComponents := some { version := some 1 } },
          nodes := [{ extensions := some { mozHubsComponents := some ["heightfield", "nav-mesh"],
                                           hubsComponents := none } }] })
      (runMigration (getVersion
        { extensions := some { mozHubsComponents := some { version := some 1 } },
          nodes := [{ extensions := some { mozHubsComponents := some ["heightfield", "nav-mesh"],
                                           hubsComponents := none } }] })
        { extensions := some { mozHubsComponents := some { version := some 1 } },
          nodes := [{ extensions := some { mozHubsComponents := some ["heightfield", "nav-mesh"],
                                           hubsComponents := none } }] }) =
      runMigration (getVersion
        { extensions := some { mozHubsComponents := some { version := some 1 } },
          nodes := [{ extensions := some { mozHubsComponents := some ["heightfield", "nav-mesh"],
                                           hubsComponents := none } }] })
        { extensions := some { mozHubsComponents := some { version := some 1 } },
          nodes := [{ extensions := some { mozHubsComponents := some ["heightfield", "nav-mesh"],
                                           hubsComponents := none } }] } ∧
    runMigration 5
        { extensions := some { mozHubsComponents := some { version := some 1 } },
          nodes := [{ extensions := some { mozHubsComponents := some ["heightfield", "nav-mesh"],
                                           hubsComponents := none } }] } =
        { extensions := some { mozHubsComponents := some { version := some 1 } },
          nodes := [{ extensions := some { mozHubsComponents := some ["heightfield", "nav-mesh"],
                                           hubsComponents := none } }] } :=
  ⟨((runMigration_amended _).2.2.2.2 _ (by decide)),
    ((runMigration_amended _).2.1 5 (by decide))⟩

/-- C6 counterexample: a version-1 asset with TWO nodes each dual-tagged
heightfield + nav-mesh.  Applying the migration step twice differs from
applying it once (the second application strips the second node), so the
migration is not idempotent as claimed; migrations also do not update the
stored version, which is why the fix-up can re-fire. -/
theorem runMigration_twice_ne_once :
    runMigration (getVersion
        { extensions := some { mozHubsComponents := some { version := some 1 } },
          nodes := [{ extensions := some { mozHubsComponents := some ["heightfield", "nav-mesh"],
                                           hubsComponents := none } },
                    { extensions := some { mozHubsComponents := some ["heightfield", "nav-mesh"],
                                           hubsComponents := none } }] })
      (runMigration (getVersion
        { extensions := some { mozHubsComponents := some { version := some 1 } },
          nodes := [{ extensions := some { mozHubsComponents := some ["heightfield", "nav-mesh"],
                                           hubsComponents := none } },
                    { extensions := some { mozHubsComponents := some ["heightfield", "nav-mesh"],
                                           hubsComponents := none } }] })
        { extensions := some { mozHubsComponents := some { version := some 1 } },
          nodes := [{ extensions := some { mozHubsComponents := some ["heightfield", "nav-mesh"],
                                           hubsComponents := none } },
                    { extensions := some { mozHubsComponents := some ["heightfield", "nav-mesh"],
                                           hubsComponents := none } }] }) ≠
      runMigration (getVersion
        { extensions := some { mozHubsComponents := some { version := some 1 } },
          nodes := [{ extensions := some { mozHubsComponents := some ["heightfield", "nav-mesh"],
                                           hubsComponents := none } },
                    { extensions := some { mozHubsComponents := some ["heightfield", "nav-mesh"],
                                           hubsComponents := none } }] })
        { extensions := some { mozHubsComponents := some { version := some 1 } },
          nodes := [{ extensions := some { mozHubsComponents := some ["heightfield", "nav-mesh"],
                                           hubsComponents := none } },
                    { extensions := some { mozHubsComponents := some ["heightfield", "nav-mesh"],
                                           hubsComponents := none } }] } := by
  decide

/-! ### Claim C7 - transform baking and node-transform reset -/

theorem renameLegacy_transform (d : GNodeData) :
    (renameLegacy d).position = d.position ∧
    (renameLegacy d).quaternion = d.quaternion ∧
    (renameLegacy d).scale = d.scale ∧
    (renameLegacy d).rotationOrder = d.rotationOrder := by
  unfold renameLegacy
  split_ifs <;> simp

/-- C7: whenever a node obtains an entity, the entity wrapper carries the
node's pre-inflation transform - same position, rotation re-expressed in the
YXZ order convention with the same orientation quaternion, scale multiplied
by the model-to-world scale passed for this node (the source passes the
caller's value at the root and the default 1 for children) - and the node's
own local transform has been reset to the identity re-expressed through
matrix decomposition: zero position, identity orientation in YXZ order, unit
scale. -/
theorem inflate_transform_baked (st : InflateState) (d : GNodeData) (cs : List GNode)
    (templates : List String) (isRoot : Bool) (m2w : ℚ)
    (h : ((inflateEntities st (GNode.node d cs) templates isRoot m2w).2).isEntity = true) :
    (((inflateEntities st (GNode.node d cs) templates isRoot m2w).2).entityD.map
        (fun a => a.position)) = some d.position ∧
    (((inflateEntities st (GNode.node d cs) templates isRoot m2w).2).entityD.map
        (fun a => a.rotationOrder)) = some "YXZ" ∧
    (((inflateEntities st (GNode.node d cs) templates isRoot m2w).2).entityD.map
        (fun a => a.orientation)) = some d.quaternion ∧
    (((inflateEntities st (GNode.node d cs) templates isRoot m2w).2).entityD.map
        (fun a => a.scale)) = some (d.scale.mulScalar m2w) ∧
    (((inflateEntities st (GNode.node d cs) templates isRoot m2w).2).payloadD.map
        (fun a => a.position)) = some Vec3.zero ∧
    (((inflateEntities st (GNode.node d cs) templates isRoot m2w).2).payloadD.map
        (fun a => a.quaternion)) = some Quat.identityQ ∧
    (((inflateEntities st (GNode.node d cs) templates isRoot m2w).2).payloadD.map
        (fun a => a.rotationOrder)) = some "YXZ" ∧
    (((inflateEntities st (GNode.node d cs) templates isRoot m2w).2).payloadD.map
        (fun a => a.scale)) = some Vec3.one := by
  obtain ⟨hp, hq, hs, _ho⟩ := renameLegacy_transform d
  rcases hx : inflateChildren st cs templates with ⟨st1, plainCs, ces⟩
  rw [inflateEntities] at h ⊢
  simp only [hx] at h ⊢
  by_cases hcond : (!((getHubsComponents (renameLegacy d)).isSome ||
      templates.contains (renameLegacy d).name) && ces.isEmpty && !isRoot) = true
  · rw [if_pos hcond] at h
    simp [InflateResult.isEntity] at h
  · rw [if_neg hcond] at h ⊢
    by_cases hord : (renameLegacy d).rotationOrder = "YXZ" <;>
      simp [InflateResult.entityD, InflateResult.payloadD, AEntity.dataOf,
        AEntity.payloadNode, GNode.dataOf, hord, hp, hq, hs]

/-- Witness for C7: a root node at position (1,2,3), XYZ rotation order,
scale (2,2,2), modelToWorldScale 3. -/
theorem inflate_transform_baked_witness :
    (((inflateEntities ⟨10, []⟩ (GNode.node
        { name := "box", uuid := 42, nodeType := "Mesh", position := ⟨1, 2, 3⟩,
          rotationOrder := "XYZ", quaternion := ⟨0, 1 / 2, 0, 1 / 2⟩, scale := ⟨2, 2, 2⟩,
          matrixAutoUpdate := true, gltfExtensions := none, legacyComponents := none,
          gltfIndex := none, animations := none } []) [] true 3).2).entityD.map
      (fun a => a.position)) = some ⟨1, 2, 3⟩ ∧
    (((inflateEntities ⟨10, []⟩ (GNode.node
        { name := "box", uuid := 42, nodeType := "Mesh", position := ⟨1, 2, 3⟩,
          rotationOrder := "XYZ", quaternion := ⟨0, 1 / 2, 0, 1 / 2⟩, scale := ⟨2, 2, 2⟩,
          matrixAutoUpdate := true, gltfExtensions := none, legacyComponents := none,
          gltfIndex := none, animations := none } []) [] true 3).2).entityD.map
      (fun a => a.rotationOrder)) = some "YXZ" ∧
    (((inflateEntities ⟨10, []⟩ (GNode.node
        { name := "box", uuid := 42, nodeType := "Mesh", position := ⟨1, 2, 3⟩,
          rotationOrder := "XYZ", quaternion := ⟨0, 1 / 2, 0, 1 / 2⟩, scale := ⟨2, 2, 2⟩,
          matrixAutoUpdate := true, gltfExtensions := none, legacyComponents := none,
          gltfIndex := none, animations := none } []) [] true 3).2).entityD.map
      (fun a => a.scale)) = some (Vec3.mulScalar ⟨2, 2, 2⟩ 3) ∧
    (((inflateEntities ⟨10, []⟩ (GNode.node
        { name := "box", uuid := 42, nodeType := "Mesh", position := ⟨1, 2, 3⟩,
          rotationOrder := "XYZ", quaternion := ⟨0, 1 / 2, 0, 1 / 2⟩, scale := ⟨2, 2, 2⟩,
          matrixAutoUpdate := true, gltfExtensions := none, legacyComponents := none,
          gltfIndex := none, animations := none } []) [] true 3).2).payloadD.map
      (fun a => a.quaternion)) = some Quat.identityQ := by
  have h := inflate_transform_baked ⟨10, []⟩
      { name := "box", uuid := 42, nodeType := "Mesh", position := ⟨1, 2, 3⟩,
        rotationOrder := "XYZ", quaternion := ⟨0, 1 / 2, 0, 1 / 2⟩, scale := ⟨2, 2, 2⟩,
        matrixAutoUpdate := true, gltfExtensions := none, legacyComponents := none,
        gltfIndex := none, animations := none } [] [] true 3 rfl
  exact ⟨h.1, h.2.1, h.2.2.2.1, h.2.2.2.2.2.1⟩

/-! ### Claim C4 - which nodes obtain an entity -/

mutual

theorem inflate_isEntity (st : InflateState) (node : GNode) (templates : List String)
    (isRoot : Bool) (m2w : ℚ) :
    ((inflateEntities st node templates isRoot m2w).2).isEntity =
      (isRoot || subtreeQualifies templates node) := by
  match node with
  | GNode.node d cs =>
    have hch := inflateChildren_entities st cs templates
    rcases hx : inflateChildren st cs templates with ⟨st1, plainCs, ces⟩
    rw [hx] at hch
    rw [inflateEntities, subtreeQualifies]
    simp only [hx]
    by_cases hcond : (!((getHubsComponents (renameLegacy d)).isSome ||
        templates.contains (renameLegacy d).name) && ces.isEmpty && !isRoot) = true
    · rw [if_pos hcond]
      simp only [Bool.and_eq_true] at hcond
      obtain ⟨⟨hb, hce⟩, hr⟩ := hcond
      have hq : listQualifies templates cs = false := by
        rw [show ces.isEmpty = true from by simpa using hce] at hch
        simpa using hch.symm
      simp_all [InflateResult.isEntity, nodeBehaviorB]
    · rw [if_neg hcond]
      simp only [Bool.and_eq_true, Bool.not_eq_true] at hcond
      simp only [InflateResult.isEntity, nodeBehaviorB]
      rcases hb : ((getHubsComponents (renameLegacy d)).isSome ||
          templates.contains (renameLegacy d).name) with _ | _
      · rcases hce : ces.isEmpty with _ | _
        · rw [hce] at hch
          have hq : listQualifies templates cs = true := by simpa using hch.symm
          simp [hq]
        · rw [hb, hce] at hcond
          rcases hr : isRoot with _ | _
          · rw [hr] at hcond
            simp at hcond
          · simp [hr]
      · simp [hb]

theorem inflateChildren_entities (st : InflateState) (cs : List GNode)
    (templates : List String) :
    ((inflateChildren st cs templates).2.2).isEmpty = !(listQualifies templates cs) := by
  match cs with
  | [] => rfl
  | c :: rest =>
    have hc := inflate_isEntity st c templates false 1
    rcases hr : inflateEntities st c templates false 1 with ⟨st1, r⟩
    have hrest := inflateChildren_entities st1 rest templates
    rcases hrr : inflateChildren st1 rest templates with ⟨st2, restPlain, restEnts⟩
    rw [hrr] at hrest
    rw [inflateChildren, listQualifies]
    simp only [hr, hrr]
    rw [hr] at hc
    match r with
    | InflateResult.entity e =>
      have : subtreeQualifies templates c = true := by simpa [InflateResult.isEntity] using hc.symm
      simp [this]
    | InflateResult.plain n =>
      have : subtreeQualifies templates c = false := by simpa [InflateResult.isEntity] using hc.symm
      simp [this, hrest]

end

theorem listQualifies_false_mem (templates : List String) (cs : List GNode)
    (h : listQualifies templates cs = false) :
    ∀ c ∈ cs, subtreeQualifies templates c = false := by
  induction cs with
  | nil => intro c hc; cases hc
  | cons c2 rest ih =>
    rw [listQualifies, Bool.or_eq_false_iff] at h
    intro c hc
    rcases List.mem_cons.mp hc with hh | ht
    · rw [hh]; exact h.1
    · exact ih h.2 c ht

/-- C4 amended: a node obtains its own entity iff it is the tree root, or
some node of its subtree carries behavior - extension-metadata components,
or a declared template matching the node's name AFTER the legacy avatar
renames (Chest to Spine, Root Scene to AvatarRoot, Bot_Skinned to
AvatarMesh) applied at the top of inflateEntities.  When a node obtains no
entity, none of its children did either, so no collected child entity is
ever dropped: child entities are always attached to their direct parent's
entity, which exists whenever they do. -/
theorem inflate_entity_iff (st : InflateState) (node : GNode) (templates : List String)
    (isRoot : Bool) (m2w : ℚ) :
    ((inflateEntities st node templates isRoot m2w).2).isEntity =
      (isRoot || subtreeQualifies templates node) ∧
    (((inflateEntities st node templates isRoot m2w).2).isEntity = false →
      ∀ c ∈ node.childrenOf, ∀ st2 : InflateState,
        ((inflateEntities st2 c templates false 1).2).isEntity = false) := by
  refine ⟨inflate_isEntity st node templates isRoot m2w, ?_⟩
  intro hfalse c hc st2
  rw [inflate_isEntity st node templates isRoot m2w] at hfalse
  rw [Bool.or_eq_false_iff] at hfalse
  obtain ⟨hroot, hqual⟩ := hfalse
  rcases node with ⟨d, cs⟩
  rw [subtreeQualifies, Bool.or_eq_false_iff] at hqual
  have hcq := listQualifies_false_mem templates cs hqual.2 c hc
  rw [inflate_isEntity st2 c templates false 1, hcq]
  rfl

/-- Witness for the amended C4: a plain root with one plain child - the root
still gets an entity (isRoot), the child does not, under any state. -/
theorem inflate_entity_iff_witness :
    ((inflateEntities ⟨0, []⟩ (GNode.node
        { name := "root", uuid := 1, nodeType := "Scene", position := Vec3.zero,
          rotationOrder := "YXZ", quaternion := Quat.identityQ, scale := Vec3.one,
          matrixAutoUpdate := true, gltfExtensions := none, legacyComponents := none,
          gltfIndex := none, animations := none }
        [GNode.node
          { name := "leaf", uuid := 2, nodeType := "Mesh", position := Vec3.zero,
            rotationOrder := "YXZ", quaternion := Quat.identityQ, scale := Vec3.one,
            matrixAutoUpdate := true, gltfExtensions := none, legacyComponents := none,
            gltfIndex := none, animations := none } []]) [] false 1).2).isEntity = false ∧
    ((inflateEntities ⟨7, [(3, 4)]⟩ (GNode.node
        { name := "leaf", uuid := 2, nodeType := "Mesh", position := Vec3.zero,
          rotationOrder := "YXZ", quaternion := Quat.identityQ, scale := Vec3.one,
          matrixAutoUpdate := true, gltfExtensions := none, legacyComponents := none,
          gltfIndex := none, animations := none } []) [] false 1).2).isEntity = false := by
  have h := inflate_entity_iff ⟨0, []⟩ (GNode.node
      { name := "root", uuid := 1, nodeType := "Scene", position := Vec3.zero,
        rotationOrder := "YXZ", quaternion := Quat.identityQ, scale := Vec3.one,
        matrixAutoUpdate := true, gltfExtensions := none, legacyComponents := none,
        gltfIndex := none, animations := none }
      [GNode.node
        { name := "leaf", uuid := 2, nodeType := "Mesh", position := Vec3.zero,
          rotationOrder := "YXZ", quaternion := Quat.identityQ, scale := Vec3.one,
          matrixAutoUpdate := true, gltfExtensions := none, legacyComponents := none,
          gltfIndex := none, animations := none } []]) [] false 1
  have h1 : ((inflateEntities ⟨0, []⟩ (GNode.node
      { name := "root", uuid := 1, nodeType := "Scene", position := Vec3.zero,
        rotationOrder := "YXZ", quaternion := Quat.identityQ, scale := Vec3.one,
        matrixAutoUpdate := true, gltfExtensions := none, legacyComponents := none,
        gltfIndex := none, animations := none }
      [GNode.node
        { name := "leaf", uuid := 2, nodeType := "Mesh", position := Vec3.zero,
          rotationOrder := "YXZ", quaternion := Quat.identityQ, scale := Vec3.one,
          matrixAutoUpdate := true, gltfExtensions := none, legacyComponents := none,
          gltfIndex := none, animations := none } []]) [] false 1).2).isEntity = false := by
    rw [h.1]; rfl
  refine ⟨h1, ?_⟩
  exact h.2 h1 _ (List.mem_singleton.mpr rfl) ⟨7, [(3, 4)]⟩

/-- C4 counterexample: a childless, componentless, non-root node named Chest
while a template named Chest is declared.  The claim as stated says the
node's name matches a declared template, so an entity must be produced; the
code renames the node to Spine before the template lookup and produces no
entity. -/
theorem inflate_chest_template_counterexample :
    ("Chest" ∈ ["Chest"]) ∧
    ((inflateEntities ⟨0, []⟩ (GNode.node
        { name := "Chest", uuid := 1, nodeType := "Bone", position := Vec3.zero,
          rotationOrder := "YXZ", quaternion := Quat.identityQ, scale := Vec3.one,
          matrixAutoUpdate := true, gltfExtensions := none, legacyComponents := none,
          gltfIndex := none, animations := none } []) ["Chest"] false 1).2).isEntity = false :=
  ⟨List.mem_singleton.mpr rfl, rfl⟩

/-! ### Claim C1 - two concurrent requests for an uncached key -/

/-- C1: starting from empty caches, two components request the same uncached,
un-inflight key before the decode settles.  Exactly one underlying decode is
started; when it settles, both observe the very same texture object (id 2)
and the cache entry's reference count is 2.  The same discipline holds for
loadModel: one loadGLTF runs, both consumers are served from the same cached
gltf instance (both recorded source gltfs are the scene allocated at the
settle), and the gltf cache count is 2. -/
theorem concurrent_uncached_requests_dedup (s : String) (h1 : s ≠ "") (h2 : s ≠ "error") :
    (texRun (texInit [initImgComp "image/png", initImgComp "image/png"])
        [TexEvent.update 0 s "", TexEvent.update 1 s "",
         TexEvent.settle 1 (some { isVideoEl := false, hasHls := false, width := 4, height := 3,
                                   videoWidth := 0, videoHeight := 0 })]).startedLoads = [(s, 1)] ∧
    (texRun (texInit [initImgComp "image/png", initImgComp "image/png"])
        [TexEvent.update 0 s "", TexEvent.update 1 s "",
         TexEvent.settle 1 (some { isVideoEl := false, hasHls := false, width := 4, height := 3,
                                   videoWidth := 0, videoHeight := 0 })]).observedLog =
      [(0, 2), (1, 2)] ∧
    (alookup (texRun (texInit [initImgComp "image/png", initImgComp "image/png"])
        [TexEvent.update 0 s "", TexEvent.update 1 s "",
         TexEvent.settle 1 (some { isVideoEl := false, hasHls := false, width := 4, height := 3,
                                   videoWidth := 0, videoHeight := 0 })]).cache s).map
      (fun it => (it.count, it.texture.texId)) = some (2, 2) ∧
    (gltfRun (gltfInit [initGConsumer false, initGConsumer false])
        [GEvent.applySrc 0 s, GEvent.applySrc 1 s,
         GEvent.settle 1 (some (SceneNode.mk 0 []))]).startedLoads = [(s, 1)] ∧
    (alookup (gltfRun (gltfInit [initGConsumer false, initGConsumer false])
        [GEvent.applySrc 0 s, GEvent.applySrc 1 s,
         GEvent.settle 1 (some (SceneNode.mk 0 []))]).cache s).map
      (fun it => (it.count, it.gltf.sceneId)) = some (2, 2) ∧
    (gltfRun (gltfInit [initGConsumer false, initGConsumer false])
        [GEvent.applySrc 0 s, GEvent.applySrc 1 s,
         GEvent.settle 1 (some (SceneNode.mk 0 []))]).outputs.map
      (fun o => (o.consumer, o.srcKey, o.srcGltf.sceneId)) = [(0, s, 2), (1, s, 2)] := by
  have hct : (jsIncludes "image/png" "image/gif" || jsStartsWith "image/png" "image/") = true := by
    decide
  refine ⟨?_, ?_, ?_, ?_, ?_, ?_⟩ <;>
    simp [texRun, texInit, texStep, texUpdate, texReleasePrev, texAcquire, texSettle,
      texResume, texStaleCheck, initImgComp, mkTexture, errorTexture,
      TextureCache.has, TextureCache.set, TextureCache.retain, TextureCache.release,
      gltfRun, gltfInit, gltfStep, gltfApplySrc, gltfSettle, gltfResume, gltfAfterLoad,
      gltfFinish, gltfDisposeLastInflated, gltfSet, gltfRetain, gltfRelease, gltfTick,
      GLTFCache.has, GLTFCache.set, GLTFCache.retain, GLTFCache.release,
      cloneGltf, cloneObject3D, cloneSceneList, Gltf.sceneId, SceneNode.nodeId,
      initGConsumer, alookup, aset, adelete, ahas, jsOrQ, hct, h1, h2]

/-- Witness for C1 at the concrete key a.png. -/
theorem concurrent_uncached_requests_dedup_witness :
    (texRun (texInit [initImgComp "image/png", initImgComp "image/png"])
        [TexEvent.update 0 "a.png" "", TexEvent.update 1 "a.png" "",
         TexEvent.settle 1 (some { isVideoEl := false, hasHls := false, width := 4, height := 3,
                                   videoWidth := 0, videoHeight := 0 })]).startedLoads =
      [("a.png", 1)] ∧
    (alookup (texRun (texInit [initImgComp "image/png", initImgComp "image/png"])
        [TexEvent.update 0 "a.png" "", TexEvent.update 1 "a.png" "",
         TexEvent.settle 1 (some { isVideoEl := false, hasHls := false, width := 4, height := 3,
                                   videoWidth := 0, videoHeight := 0 })]).cache "a.png").map
      (fun it => (it.count, it.texture.texId)) = some (2, 2) :=
  ⟨(concurrent_uncached_requests_dedup "a.png" (by decide) (by decide)).1,
    (concurrent_uncached_requests_dedup "a.png" (by decide) (by decide)).2.2.1⟩

/-! ### Claim C5 - a superseded model load leaves no net retain and no
attached stale entity -/

/-- C5: a consumer (inflate on) requests key a, then requests key b before
a's load resolves; both loads then resolve and the nextTick continuation
runs.  The stale continuation for a discards its result; the retain its
loadModel took for a (the cache set) is exactly balanced by the release of
lastSrc performed when the b load completes, the cache no longer holds a,
and the only inflated tree attached to the document is b's - nothing
inflated from the stale load is attached (the stale path returned before
inflating). -/
theorem superseded_load_no_leak (a b : String) (hab : a ≠ b) (ha : a ≠ "") (hb : b ≠ "") :
    (gltfRun (gltfInit [initGConsumer true])
        [GEvent.applySrc 0 a, GEvent.applySrc 0 b,
         GEvent.settle 1 (some (SceneNode.mk 0 [])),
         GEvent.settle 2 (some (SceneNode.mk 0 [])), GEvent.tick]).retainEv.count a = 1 ∧
    (gltfRun (gltfInit [initGConsumer true])
        [GEvent.applySrc 0 a, GEvent.applySrc 0 b,
         GEvent.settle 1 (some (SceneNode.mk 0 [])),
         GEvent.settle 2 (some (SceneNode.mk 0 [])), GEvent.tick]).releaseEv.count a = 1 ∧
    alookup (gltfRun (gltfInit [initGConsumer true])
        [GEvent.applySrc 0 a, GEvent.applySrc 0 b,
         GEvent.settle 1 (some (SceneNode.mk 0 [])),
         GEvent.settle 2 (some (SceneNode.mk 0 [])), GEvent.tick]).cache a = none ∧
    (alookup (gltfRun (gltfInit [initGConsumer true])
        [GEvent.applySrc 0 a, GEvent.applySrc 0 b,
         GEvent.settle 1 (some (SceneNode.mk 0 [])),
         GEvent.settle 2 (some (SceneNode.mk 0 [])), GEvent.tick]).cache b).map
      (fun it => it.count) = some 1 ∧
    (gltfRun (gltfInit [initGConsumer true])
        [GEvent.applySrc 0 a, GEvent.applySrc 0 b,
         GEvent.settle 1 (some (SceneNode.mk 0 [])),
         GEvent.settle 2 (some (SceneNode.mk 0 [])), GEvent.tick]).attachedEls = [(0, b)] := by
  have hba : b ≠ a := Ne.symm hab
  refine ⟨?_, ?_, ?_, ?_, ?_⟩ <;>
    simp [gltfRun, gltfInit, gltfStep, gltfApplySrc, gltfSettle, gltfResume, gltfAfterLoad,
      gltfFinish, gltfDisposeLastInflated, gltfSet, gltfRetain, gltfRelease, gltfTick,
      GLTFCache.has, GLTFCache.set, GLTFCache.retain, GLTFCache.release,
      cloneGltf, cloneObject3D, cloneSceneList, sceneNodeIds, sceneListIds,
      initGConsumer, alookup, aset, adelete, ahas, List.count_cons,
      hab, hba, ha, hb]

/-- Witness for C5 at concrete keys. -/
theorem superseded_load_no_leak_witness :
    (gltfRun (gltfInit [initGConsumer true])
        [GEvent.applySrc 0 "m-a.glb", GEvent.applySrc 0 "m-b.glb",
         GEvent.settle 1 (some (SceneNode.mk 0 [])),
         GEvent.settle 2 (some (SceneNode.mk 0 [])), GEvent.tick]).retainEv.count "m-a.glb" = 1 ∧
    alookup (gltfRun (gltfInit [initGConsumer true])
        [GEvent.applySrc 0 "m-a.glb", GEvent.applySrc 0 "m-b.glb",
         GEvent.settle 1 (some (SceneNode.mk 0 [])),
         GEvent.settle 2 (some (SceneNode.mk 0 [])), GEvent.tick]).cache "m-a.glb" = none ∧
    (gltfRun (gltfInit [initGConsumer true])
        [GEvent.applySrc 0 "m-a.glb", GEvent.applySrc 0 "m-b.glb",
         GEvent.settle 1 (some (SceneNode.mk 0 [])),
         GEvent.settle 2 (some (SceneNode.mk 0 [])), GEvent.tick]).attachedEls =
      [(0, "m-b.glb")] :=
  ⟨(superseded_load_no_leak "m-a.glb" "m-b.glb" (by decide) (by decide) (by decide)).1,
    (superseded_load_no_leak "m-a.glb" "m-b.glb" (by decide) (by decide) (by decide)).2.2.1,
    (superseded_load_no_leak "m-a.glb" "m-b.glb" (by decide) (by decide) (by decide)).2.2.2.2⟩

/-! ### Claim C3 - the in-flight registry invariant -/

theorem alookup_mem {κ α : Type} [DecidableEq κ] {m : List (κ × α)} {k : κ} {v : α}
    (h : alookup m k = some v) : (k, v) ∈ m := by
  induction m with
  | nil => simp [alookup] at h
  | cons p rest ih =>
    obtain ⟨k1, w⟩ := p
    by_cases hk : k1 = k
    · subst hk
      simp [alookup] at h
      simp [h]
    · simp [alookup, hk] at h
      exact List.mem_cons_of_mem _ (ih h)

theorem alookup_none_not_mem {κ α : Type} [DecidableEq κ] {m : List (κ × α)} {k : κ}
    (h : alookup m k = none) : ∀ v : α, (k, v) ∉ m := by
  induction m with
  | nil => intro v hv; cases hv
  | cons p rest ih =>
    obtain ⟨k1, w⟩ := p
    by_cases hk : k1 = k
    · subst hk
      simp [alookup] at h
    · simp [alookup, hk] at h
      intro v hv
      rcases List.mem_cons.mp hv with he | ht
      · exact hk (congrArg Prod.fst he).symm
      · exact ih h v ht

theorem nodup_mem_alookup {κ α : Type} [DecidableEq κ] {m : List (κ × α)}
    (hnd : (m.map Prod.fst).Nodup) {k : κ} {v : α} (h : (k, v) ∈ m) :
    alookup m k = some v := by
  induction m with
  | nil => cases h
  | cons p rest ih =>
    obtain ⟨k1, w⟩ := p
    rw [List.map_cons, List.nodup_cons] at hnd
    rcases List.mem_cons.mp h with he | ht
    · injection he with h1 h2
      subst h1
      subst h2
      simp [alookup]
    · by_cases hk : k1 = k
      · subst hk
        exact absurd (List.mem_map_of_mem Prod.fst ht) hnd.1
      · simp [alookup, hk]
        exact ih hnd.2 ht

theorem aset_append {κ α : Type} [DecidableEq κ] {m : List (κ × α)} {k : κ}
    (h : alookup m k = none) (v : α) : aset m k v = m ++ [(k, v)] := by
  induction m with
  | nil => rfl
  | cons p rest ih =>
    obtain ⟨k1, w⟩ := p
    by_cases hk : k1 = k
    · subst hk
      simp [alookup] at h
    · simp [alookup, hk] at h
      simp [aset, hk, ih h]

theorem mem_aset {κ α : Type} [DecidableEq κ] {m : List (κ × α)} {k : κ} {v : α}
    {p : κ × α} (h : p ∈ aset m k v) : p = (k, v) ∨ p ∈ m := by
  induction m with
  | nil => simpa [aset] using h
  | cons q rest ih =>
    obtain ⟨k1, w⟩ := q
    by_cases hk : k1 = k
    · subst hk
      simp [aset] at h
      rcases h with he | ht
      · exact Or.inl he
      · exact Or.inr (List.mem_cons_of_mem _ ht)
    · simp [aset, hk] at h
      rcases h with he | ht
      · exact Or.inr (by simp [he])
      · rcases ih ht with h1 | h2
        · exact Or.inl h1
        · exact Or.inr (List.mem_cons_of_mem _ h2)

theorem keys_aset {κ α : Type} [DecidableEq κ] {m : List (κ × α)} {k : κ} {w : α}
    (h : alookup m k = some w) (v : α) : (aset m k v).map Prod.fst = m.map Prod.fst := by
  induction m with
  | nil => simp [alookup] at h
  | cons q rest ih =>
    obtain ⟨k1, w1⟩ := q
    by_cases hk : k1 = k
    · subst hk
      simp [aset]
    · simp [alookup, hk] at h
      simp [aset, hk, ih h]

theorem mem_adelete {κ α : Type} [DecidableEq κ] {m : List (κ × α)} {key : κ}
    {p : κ × α} (h : p ∈ adelete m key) : p ∈ m := by
  induction m with
  | nil => simp [adelete] at h
  | cons q rest ih =>
    obtain ⟨k1, w⟩ := q
    by_cases hk : k1 = key
    · subst hk
      simp [adelete] at h
      exact List.mem_cons_of_mem _ (ih h)
    · simp [adelete, hk] at h
      rcases h with he | ht
      · simp [he]
      · exact List.mem_cons_of_mem _ (ih ht)

theorem texStaleCheck_shape (s : TexSys) (r : Nat) (c : ImgComp) (src : String) (tid : Nat) :
    (texStaleCheck s r c src tid).loads = s.loads ∧
    (texStaleCheck s r c src tid).nextId = s.nextId ∧
    (texStaleCheck s r c src tid).inflight = s.inflight := by
  unfold texStaleCheck
  rcases hx : TextureCache.release s.cache src with ⟨c2, acts, err⟩
  split <;> simp [hx]

theorem texResume_shape (s : TexSys) (out : Option Texture) (aw : TexAwaiter) :
    (texResume s out aw).loads = s.loads ∧
    (texResume s out aw).nextId = s.nextId ∧
    ((texResume s out aw).inflight = s.inflight ∨
      (texResume s out aw).inflight = adelete s.inflight aw.src) := by
  unfold texResume
  rcases hc : s.comps.get? aw.comp with _ | c
  · exact ⟨rfl, rfl, Or.inl rfl⟩
  · dsimp only
    rcases out with _ | t
    · exact ⟨rfl, rfl, Or.inl rfl⟩
    · dsimp only
      by_cases hst : aw.starter = true
      · rw [if_pos hst]
        rcases hy : TextureCache.set s.cache aw.src t with _ | ⟨c2, item⟩
        · exact ⟨rfl, rfl, Or.inr rfl⟩
        · exact ⟨(texStaleCheck_shape _ _ _ _ _).1, (texStaleCheck_shape _ _ _ _ _).2.1,
            Or.inr ((texStaleCheck_shape _ _ _ _ _).2.2)⟩
      · rw [if_neg hst]
        rcases hy : TextureCache.retain s.cache aw.src with _ | ⟨c2, item⟩
        · exact ⟨rfl, rfl, Or.inl rfl⟩
        · exact ⟨(texStaleCheck_shape _ _ _ _ _).1, (texStaleCheck_shape _ _ _ _ _).2.1,
            Or.inl ((texStaleCheck_shape _ _ _ _ _).2.2)⟩

theorem texInv_transport (s s2 : TexSys) (hinv : TexInv s) (hl : s2.loads = s.loads)
    (hi : s2.inflight = s.inflight) (hn : s2.nextId = s.nextId) : TexInv s2 := by
  constructor
  · intro lid lr hlk hpend
    rw [hl] at hlk
    rw [hi]
    exact hinv.pendingInflight lid lr hlk hpend
  · rw [hl]
    exact hinv.keysNodup
  · rw [hl, hn]
    exact hinv.keysLt
  · rw [hl]
    exact hinv.awaiterSrc
  · intro kv hkv
    rw [hi] at hkv
    rw [hl]
    exact hinv.inflightLoads kv hkv

theorem texStaleCheck_inv (s : TexSys) (r : Nat) (c : ImgComp) (src : String) (tid : Nat)
    (hinv : TexInv s) : TexInv (texStaleCheck s r c src tid) := by
  obtain ⟨h1, h2, h3⟩ := texStaleCheck_shape s r c src tid
  exact texInv_transport s _ hinv h1 h3 h2

theorem texResume_inv (s : TexSys) (out : Option Texture) (aw : TexAwaiter)
    (hinv : TexInv s)
    (hnp : ∀ lid lr, alookup s.loads lid = some lr → lr.status = TexLoadStatus.pending →
      lr.src ≠ aw.src) :
    TexInv (texResume s out aw) := by
  obtain ⟨hl, hn, hi⟩ := texResume_shape s out aw
  constructor
  · intro lid lr hlk hpend
    rw [hl] at hlk
    rcases hi with he | he <;> rw [he]
    · exact hinv.pendingInflight lid lr hlk hpend
    · rw [alookup_adelete_ne s.inflight aw.src lr.src (Ne.symm (hnp lid lr hlk hpend))]
      exact hinv.pendingInflight lid lr hlk hpend
  · rw [hl]
    exact hinv.keysNodup
  · rw [hl, hn]
    exact hinv.keysLt
  · rw [hl]
    exact hinv.awaiterSrc
  · intro kv hkv
    rw [hl]
    rcases hi with he | he
    · rw [he] at hkv
      exact hinv.inflightLoads kv hkv
    · rw [he] at hkv
      exact hinv.inflightLoads kv (mem_adelete hkv)

theorem texResume_fold (out : Option Texture) (aws : List TexAwaiter) (s : TexSys)
    (hinv : TexInv s)
    (hnp : ∀ aw ∈ aws, ∀ lid lr, alookup s.loads lid = some lr →
      lr.status = TexLoadStatus.pending → lr.src ≠ aw.src) :
    TexInv (aws.foldl (fun acc aw => texResume acc out aw) s) := by
  induction aws generalizing s with
  | nil => exact hinv
  | cons aw rest ih =>
    rw [List.foldl_cons]
    have h1 := texResume_inv s out aw hinv (hnp aw (List.mem_cons_self aw rest))
    have hl := (texResume_shape s out aw).1
    refine ih (texResume s out aw) h1 ?_
    intro aw2 hm lid lr hlk hpend
    rw [hl] at hlk
    exact hnp aw2 (List.mem_cons_of_mem aw hm) lid lr hlk hpend

/-- Marking a load as settled (and bumping the allocator by d) preserves the
registry invariant. -/
theorem texMark_inv (s : TexSys) (lid : Nat) (lr : TexLoad) (st2 : TexLoadStatus) (d : Nat)
    (hlk : alookup s.loads lid = some lr) (hst2 : st2 ≠ TexLoadStatus.pending)
    (hinv : TexInv s) :
    TexInv { s with nextId := s.nextId + d, loads := aset s.loads lid { lr with status := st2 } } := by
  have hmem : (lid, lr) ∈ s.loads := alookup_mem hlk
  constructor
  · intro lid2 lr2 hlk2 hpend
    by_cases he : lid = lid2
    · subst he
      rw [alookup_aset_self] at hlk2
      injection hlk2 with h2
      rw [← h2] at hpend
      exact absurd hpend hst2
    · rw [alookup_aset_ne _ _ _ _ he] at hlk2
      exact hinv.pendingInflight lid2 lr2 hlk2 hpend
  · show ((aset s.loads lid _).map Prod.fst).Nodup
    rw [keys_aset hlk]
    exact hinv.keysNodup
  · intro p hp
    rcases mem_aset hp with he | hmem2
    · rw [he]
      have := hinv.keysLt (lid, lr) hmem
      simp only at this ⊢
      omega
    · have := hinv.keysLt p hmem2
      simp only at this ⊢
      omega
  · intro p hp aw haw
    rcases mem_aset hp with he | hmem2
    · rw [he] at haw ⊢
      exact hinv.awaiterSrc (lid, lr) hmem aw haw
    · exact hinv.awaiterSrc p hmem2 aw haw
  · intro kv hkv
    obtain ⟨lr3, hlk3, hsrc3⟩ := hinv.inflightLoads kv hkv
    by_cases he : lid = kv.2
    · subst he
      rw [hlk] at hlk3
      injection hlk3 with h3
      refine ⟨{ lr with status := st2 }, alookup_aset_self .., ?_⟩
      rw [← h3] at hsrc3
      exact hsrc3
    · exact ⟨lr3, by rw [alookup_aset_ne _ _ _ _ he]; exact hlk3, hsrc3⟩

/-- After the settled load is marked non-pending, no pending load shares its
key, so every awaiter of that load resumes safely. -/
theorem texMark_no_pending (s : TexSys) (lid : Nat) (lr : TexLoad) (st2 : TexLoadStatus)
    (hlk : alookup s.loads lid = some lr) (hpend : lr.status = TexLoadStatus.pending)
    (hst2 : st2 ≠ TexLoadStatus.pending) (hinv : TexInv s) :
    ∀ aw ∈ lr.awaiters, ∀ lid2 lr2,
      alookup (aset s.loads lid { lr with status := st2 }) lid2 = some lr2 →
      lr2.status = TexLoadStatus.pending → lr2.src ≠ aw.src := by
  intro aw haw lid2 lr2 hlk2 hpend2
  have hawsrc : aw.src = lr.src := hinv.awaiterSrc (lid, lr) (alookup_mem hlk) aw haw
  by_cases he : lid = lid2
  · subst he
    rw [alookup_aset_self] at hlk2
    injection hlk2 with h2
    rw [← h2] at hpend2
    exact absurd hpend2 hst2
  · rw [alookup_aset_ne _ _ _ _ he] at hlk2
    have h1 := hinv.pendingInflight lid2 lr2 hlk2 hpend2
    have h2 := hinv.pendingInflight lid lr hlk hpend
    intro hsrc
    rw [hsrc, hawsrc] at h1
    rw [h1] at h2
    injection h2 with h3
    exact he h3.symm

theorem texSettle_inv (s : TexSys) (lid : Nat) (outcome : Option TexSpec) (hinv : TexInv s) :
    TexInv (texSettle s lid outcome) := by
  unfold texSettle
  rcases hlk : alookup s.loads lid with _ | lr
  · exact hinv
  · dsimp only
    rcases hstat : lr.status with _ | t | _
    · dsimp only
      rcases outcome with _ | sp
      · dsimp only
        refine texResume_fold none lr.awaiters _ ?_ ?_
        · exact texMark_inv s lid lr TexLoadStatus.failed 0 hlk (by simp) hinv
        · intro aw haw lid2 lr2 hlk2 hpend2
          exact texMark_no_pending s lid lr TexLoadStatus.failed hlk hstat (by simp) hinv
            aw haw lid2 lr2 hlk2 hpend2
      · dsimp only
        refine texResume_fold (some (mkTexture s.nextId sp)) lr.awaiters _ ?_ ?_
        · exact texMark_inv s lid lr (TexLoadStatus.succeeded (mkTexture s.nextId sp)) 1 hlk
            (by simp) hinv
        · intro aw haw lid2 lr2 hlk2 hpend2
          exact texMark_no_pending s lid lr (TexLoadStatus.succeeded (mkTexture s.nextId sp))
            hlk hstat (by simp) hinv aw haw lid2 lr2 hlk2 hpend2
    · exact hinv
    · exact hinv

theorem texReleasePrev_shape (s : TexSys) (r : Nat) (c : ImgComp) (oldSrc : String) :
    (texReleasePrev s r c oldSrc).1.loads = s.loads ∧
    (texReleasePrev s r c oldSrc).1.nextId = s.nextId ∧
    (texReleasePrev s r c oldSrc).1.inflight = s.inflight := by
  unfold texReleasePrev
  rcases c.meshMap with _ | m
  · exact ⟨rfl, rfl, rfl⟩
  · dsimp only
    by_cases h1 : c.dataSrc ≠ oldSrc
    · rw [if_pos h1]
      by_cases h2 : m ≠ errorTexture.texId
      · rw [if_pos h2]
        rcases hx : TextureCache.release s.cache oldSrc with ⟨c2, acts, err⟩
        exact ⟨rfl, rfl, rfl⟩
      · rw [if_neg h2]
        exact ⟨rfl, rfl, rfl⟩
    · rw [if_neg h1]
      exact ⟨rfl, rfl, rfl⟩

/-- Joining an in-flight pending decode only appends an awaiter; the
invariant is preserved. -/
theorem texRegister_inv (s : TexSys) (r : Nat) (src : String) (lid : Nat) (lr : TexLoad)
    (hif : alookup s.inflight src = some lid) (hlk : alookup s.loads lid = some lr)
    (hinv : TexInv s) :
    TexInv { s with
      loads := aset s.loads lid { lr with awaiters := lr.awaiters ++ [⟨r, src, false⟩] } } := by
  have hmem : (lid, lr) ∈ s.loads := alookup_mem hlk
  have hsrceq : lr.src = src := by
    obtain ⟨lr3, hlk3, hsrc3⟩ := hinv.inflightLoads (src, lid) (alookup_mem hif)
    rw [hlk] at hlk3
    injection hlk3 with h3
    rw [h3]
    exact hsrc3
  constructor
  · intro lid2 lr2 hlk2 hpend2
    by_cases he : lid = lid2
    · subst he
      rw [alookup_aset_self] at hlk2
      injection hlk2 with h2
      rw [← h2]
      exact hinv.pendingInflight lid lr hlk (by rw [← h2] at hpend2; exact hpend2)
    · rw [alookup_aset_ne _ _ _ _ he] at hlk2
      exact hinv.pendingInflight lid2 lr2 hlk2 hpend2
  · show ((aset s.loads lid _).map Prod.fst).Nodup
    rw [keys_aset hlk]
    exact hinv.keysNodup
  · intro p hp
    rcases mem_aset hp with he | hmem2
    · rw [he]
      exact hinv.keysLt (lid, lr) hmem
    · exact hinv.keysLt p hmem2
  · intro p hp aw haw
    rcases mem_aset hp with he | hmem2
    · rw [he] at haw ⊢
      rcases List.mem_append.mp haw with h1 | h1
      · exact hinv.awaiterSrc (lid, lr) hmem aw h1
      · rw [List.mem_singleton.mp h1]
        exact hsrceq.symm
    · exact hinv.awaiterSrc p hmem2 aw haw
  · intro kv hkv
    obtain ⟨lr3, hlk3, hsrc3⟩ := hinv.inflightLoads kv hkv
    by_cases he : lid = kv.2
    · subst he
      rw [hlk] at hlk3
      injection hlk3 with h3
      refine ⟨_, alookup_aset_self .., ?_⟩
      rw [← h3] at hsrc3
      exact hsrc3
    · exact ⟨lr3, by rw [alookup_aset_ne _ _ _ _ he]; exact hlk3, hsrc3⟩

/-- Beginning a brand-new decode records a fresh pending load keyed in the
in-flight map; the invariant is preserved. -/
theorem texStart_inv (s : TexSys) (r : Nat) (src : String)
    (hif : alookup s.inflight src = none) (hinv : TexInv s) :
    TexInv { s with
      nextId := s.nextId + 1
      startedLoads := s.startedLoads ++ [(src, s.nextId)]
      inflight := aset s.inflight src s.nextId
      loads := aset s.loads s.nextId
        { src := src, status := TexLoadStatus.pending, awaiters := [⟨r, src, true⟩] }
      comps := s.comps } := by
  have hnotin : alookup s.loads s.nextId = none := by
    rcases hx : alookup s.loads s.nextId with _ | lr
    · rfl
    · have := hinv.keysLt (s.nextId, lr) (alookup_mem hx)
      simp at this
  have happ := aset_append hnotin
    (⟨src, TexLoadStatus.pending, [⟨r, src, false⟩]⟩ : TexLoad)
  constructor
  · intro lid2 lr2 hlk2 hpend2
    by_cases he : s.nextId = lid2
    · subst he
      rw [alookup_aset_self] at hlk2
      injection hlk2 with h2
      rw [← h2]
      exact alookup_aset_self ..
    · rw [alookup_aset_ne _ _ _ _ he] at hlk2
      have h1 := hinv.pendingInflight lid2 lr2 hlk2 hpend2
      by_cases hs2 : lr2.src = src
      · rw [hs2, hif] at h1
        cases h1
      · dsimp only
        rw [alookup_aset_ne _ _ _ _ (fun hx => hs2 hx.symm)]
        exact h1
  · show ((aset s.loads s.nextId _).map Prod.fst).Nodup
    rw [aset_append hnotin _]
    rw [List.map_append]
    rw [List.nodup_append]
    refine ⟨hinv.keysNodup, List.nodup_singleton _, ?_⟩
    intro a ha hb
    simp only [List.map_cons, List.map_nil, List.mem_singleton] at hb
    subst hb
    rcases List.mem_map.mp ha with ⟨p, hp, hfst⟩
    have := hinv.keysLt p hp
    omega
  · intro p hp
    rcases mem_aset hp with he | hmem2
    · rw [he]
      simp
    · have := hinv.keysLt p hmem2
      simp only at this ⊢
      omega
  · intro p hp aw haw
    rcases mem_aset hp with he | hmem2
    · rw [he] at haw ⊢
      rw [List.mem_singleton.mp haw]
    · exact hinv.awaiterSrc p hmem2 aw haw
  · intro kv hkv
    rcases mem_aset hkv with he | hmem2
    · rw [he]
      exact ⟨_, alookup_aset_self .., rfl⟩
    · obtain ⟨lr3, hlk3, hsrc3⟩ := hinv.inflightLoads kv hmem2
      have hklt : kv.2 < s.nextId := hinv.keysLt (kv.2, lr3) (alookup_mem hlk3)
      refine ⟨lr3, ?_, hsrc3⟩
      dsimp only
      rw [alookup_aset_ne _ _ _ _ (by omega)]
      exact hlk3

theorem texAcquire_inv (s : TexSys) (r : Nat) (c : ImgComp) (hinv : TexInv s) :
    TexInv (texAcquire s r c) := by
  unfold texAcquire
  dsimp only
  by_cases hh : TextureCache.has s.cache c.dataSrc = true
  · rw [if_pos hh]
    by_cases hret : c.currentSrcIsRetained = true
    · rw [if_pos hret]
      rcases hx : alookup s.cache c.dataSrc with _ | item
      · exact hinv
      · exact texInv_transport _ _ hinv rfl rfl rfl
    · rw [if_neg hret]
      rcases hx : TextureCache.retain s.cache c.dataSrc with _ | ⟨c2, item⟩
      · exact texInv_transport _ _ hinv rfl rfl rfl
      · exact texInv_transport _ _ hinv rfl rfl rfl
  · rw [if_neg hh]
    by_cases he : c.dataSrc = "error"
    · rw [if_pos he]
      exact texStaleCheck_inv _ _ _ _ _ hinv
    · rw [if_neg he]
      rcases hif : alookup s.inflight c.dataSrc with _ | lid
      · dsimp only
        by_cases hct : (jsIncludes c.contentType "image/gif" ||
            jsStartsWith c.contentType "image/") = true
        · rw [if_pos hct]
          exact texStart_inv s r c.dataSrc hif hinv
        · rw [if_neg hct]
          exact texInv_transport _ _ hinv rfl rfl rfl
      · dsimp only
        rcases hlk : alookup s.loads lid with _ | lr
        · exact hinv
        · dsimp only
          rcases hstat : lr.status with _ | t | _
          · have hreg := texRegister_inv s r c.dataSrc lid lr hif hlk hinv
            rw [hstat] at hreg
            exact hreg
          · refine texResume_inv s (some t) ⟨r, c.dataSrc, false⟩ hinv ?_
            intro lid2 lr2 hlk2 hpend2 hsrc
            have h1 := hinv.pendingInflight lid2 lr2 hlk2 hpend2
            rw [hsrc] at h1
            have h3 := hif.symm.trans h1
            injection h3 with h4
            subst h4
            rw [hlk] at hlk2
            injection hlk2 with h5
            rw [h5] at hstat
            rw [hpend2] at hstat
            cases hstat
          · refine texResume_inv s none ⟨r, c.dataSrc, false⟩ hinv ?_
            intro lid2 lr2 hlk2 hpend2 hsrc
            have h1 := hinv.pendingInflight lid2 lr2 hlk2 hpend2
            rw [hsrc] at h1
            have h3 := hif.symm.trans h1
            injection h3 with h4
            subst h4
            rw [hlk] at hlk2
            injection hlk2 with h5
            rw [h5] at hstat
            rw [hpend2] at hstat
            cases hstat

theorem texUpdate_inv (s : TexSys) (r : Nat) (newSrc oldSrc : String) (hinv : TexInv s) :
    TexInv (texUpdate s r newSrc oldSrc) := by
  unfold texUpdate
  rcases hc : s.comps.get? r with _ | c0
  · exact hinv
  · dsimp only
    by_cases hsrc : newSrc = ""
    · rw [if_pos hsrc]
      exact texInv_transport _ _ hinv rfl rfl rfl
    · rw [if_neg hsrc]
      rcases hrp : texReleasePrev
          { s with comps := s.comps.set r { c0 with dataSrc := newSrc } } r
          { c0 with dataSrc := newSrc } oldSrc with ⟨s2, c2⟩
      have hsh := texReleasePrev_shape
        { s with comps := s.comps.set r { c0 with dataSrc := newSrc } } r
        { c0 with dataSrc := newSrc } oldSrc
      rw [hrp] at hsh
      exact texAcquire_inv s2 r c2 (texInv_transport s s2 hinv hsh.1 hsh.2.2 hsh.2.1)

theorem texInit_inv (comps : List ImgComp) : TexInv (texInit comps) := by
  constructor
  · intro lid lr hlk
    simp [texInit, alookup] at hlk
  · simp [texInit]
  · intro p hp
    simp [texInit] at hp
  · intro p hp
    simp [texInit] at hp
  · intro kv hkv
    simp [texInit] at hkv

theorem texRun_inv (s : TexSys) (events : List TexEvent) (hinv : TexInv s) :
    TexInv (texRun s events) := by
  induction events generalizing s with
  | nil => exact hinv
  | cons e rest ih =>
    have hstep : TexInv (texStep s e) := by
      cases e with
      | update r ns os => exact texUpdate_inv s r ns os hinv
      | settle lid outc => exact texSettle_inv s lid outc hinv
    exact ih (texStep s e) hstep

/-- C3 counterexample: one component starts a decode for k.png and the decode
settles with FAILURE.  The claim says the in-flight record is removed the
instant its computation settles, success or failure; in the code the delete
(line 810) sits after the await, so a rejection skips it: the in-flight map
still holds k.png although its load has settled as failed (and, as the claim
does say, no cache entry exists). -/
theorem inflight_not_removed_on_failure :
    alookup (texRun (texInit [initImgComp "image/png"])
      [TexEvent.update 0 "k.png" "", TexEvent.settle 1 none]).inflight "k.png" = some 1 ∧
    (alookup (texRun (texInit [initImgComp "image/png"])
      [TexEvent.update 0 "k.png" "", TexEvent.settle 1 none]).loads 1).map
      (fun l => (l.src, l.status)) = some ("k.png", TexLoadStatus.failed) ∧
    alookup (texRun (texInit [initImgComp "image/png"])
      [TexEvent.update 0 "k.png" "", TexEvent.settle 1 none]).cache "k.png" = none :=
  ⟨rfl, rfl, rfl⟩

/-- C3 amended: (a) for every key, at most one pending load computation exists
at any time, over every event trace - two pending load records sharing a key
are the same record; (b) when the computation settles with success the
in-flight record is removed at once and a cache entry exists for the key;
(c) when it settles with failure no cache entry exists, but the in-flight
record is NOT removed (the delete sits after the await and is skipped on
rejection) - the record lingers, mapping the key to the settled load. -/
theorem inflight_registry_amended :
    (∀ (comps : List ImgComp) (events : List TexEvent) (p q : Nat × TexLoad),
      p ∈ (texRun (texInit comps) events).loads →
      q ∈ (texRun (texInit comps) events).loads →
      p.2.status = TexLoadStatus.pending → q.2.status = TexLoadStatus.pending →
      p.2.src = q.2.src → p = q) ∧
    (∀ k : String, k ≠ "" → k ≠ "error" →
      alookup (texRun (texInit [initImgComp "image/png"])
        [TexEvent.update 0 k "", TexEvent.settle 1
          (some { isVideoEl := false, hasHls := false, width := 4, height := 3,
                  videoWidth := 0, videoHeight := 0 })]).inflight k = none ∧
      TextureCache.has (texRun (texInit [initImgComp "image/png"])
        [TexEvent.update 0 k "", TexEvent.settle 1
          (some { isVideoEl := false, hasHls := false, width := 4, height := 3,
                  videoWidth := 0, videoHeight := 0 })]).cache k = true) ∧
    (∀ k : String, k ≠ "" → k ≠ "error" →
      alookup (texRun (texInit [initImgComp "image/png"])
        [TexEvent.update 0 k "", TexEvent.settle 1 none]).inflight k = some 1 ∧
      alookup (texRun (texInit [initImgComp "image/png"])
        [TexEvent.update 0 k "", TexEvent.settle 1 none]).cache k = none) := by
  have hct : (jsIncludes "image/png" "image/gif" || jsStartsWith "image/png" "image/") = true := by
    decide
  refine ⟨?_, ?_, ?_⟩
  · intro comps events p q hp hq hps hqs hsrc
    have hinv := texRun_inv (texInit comps) events (texInit_inv comps)
    have hp2 : ((p.1, p.2) : Nat × TexLoad) ∈ (texRun (texInit comps) events).loads := by
      simpa using hp
    have hq2 : ((q.1, q.2) : Nat × TexLoad) ∈ (texRun (texInit comps) events).loads := by
      simpa using hq
    have hlp := nodup_mem_alookup hinv.keysNodup hp2
    have hlq := nodup_mem_alookup hinv.keysNodup hq2
    have h1 := hinv.pendingInflight p.1 p.2 hlp hps
    have h2 := hinv.pendingInflight q.1 q.2 hlq hqs
    rw [hsrc] at h1
    rw [h1] at h2
    injection h2 with h3
    have h4 : alookup (texRun (texInit comps) events).loads q.1 = some p.2 := by
      rw [← h3]
      exact hlp
    rw [hlq] at h4
    injection h4 with h5
    have h6 : p.1 = q.1 := h3
    calc p = (p.1, p.2) := rfl
      _ = (q.1, q.2) := by rw [h6, h5]
      _ = q := rfl
  · intro k h1 h2
    constructor <;>
      simp [texRun, texInit, texStep, texUpdate, texReleasePrev, texAcquire, texSettle,
        texResume, texStaleCheck, initImgComp, mkTexture, errorTexture,
        TextureCache.has, TextureCache.set, TextureCache.retain, TextureCache.release,
        alookup, aset, adelete, ahas, jsOrQ, hct, h1, h2]
  · intro k h1 h2
    constructor <;>
      simp [texRun, texInit, texStep, texUpdate, texReleasePrev, texAcquire, texSettle,
        texResume, texStaleCheck, initImgComp, mkTexture, errorTexture,
        TextureCache.has, TextureCache.set, TextureCache.retain, TextureCache.release,
        alookup, aset, adelete, ahas, jsOrQ, hct, h1, h2]

/-- Witness for the amended C3 at concrete traces and keys. -/
theorem inflight_registry_amended_witness :
    ((1, ({ src := "w.png", status := TexLoadStatus.pending,
            awaiters := [⟨0, "w.png", true⟩] } : TexLoad)) =
      (1, ({ src := "w.png", status := TexLoadStatus.pending,
             awaiters := [⟨0, "w.png", true⟩] } : TexLoad))) ∧
    alookup (texRun (texInit [initImgComp "image/png"])
      [TexEvent.update 0 "k.png" "", TexEvent.settle 1
        (some { isVideoEl := false, hasHls := false, width := 4, height := 3,
                videoWidth := 0, videoHeight := 0 })]).inflight "k.png" = none ∧
    alookup (texRun (texInit [initImgComp "image/png"])
      [TexEvent.update 0 "k.png" "", TexEvent.settle 1 none]).inflight "k.png" = some 1 := by
  refine ⟨?_, ?_, ?_⟩
  · exact inflight_registry_amended.1 [initImgComp "image/png"] [TexEvent.update 0 "w.png" ""]
      _ _ (by decide) (by decide) rfl rfl rfl
  · exact (inflight_registry_amended.2.1 "k.png" (by decide) (by decide)).1
  · exact (inflight_registry_amended.2.2 "k.png" (by decide) (by decide)).1

/-! ### Claim C10 - loadModel returns fresh clones -/

theorem mem_flatten_map {β : Type} (f : β → List Nat) {m : List β} {i : Nat} :
    i ∈ (m.map f).flatten ↔ ∃ p, p ∈ m ∧ i ∈ f p := by
  constructor
  · intro h
    rcases List.mem_flatten.mp h with ⟨l, hl, hil⟩
    rcases List.mem_map.mp hl with ⟨p, hp, hfp⟩
    exact ⟨p, hp, hfp ▸ hil⟩
  · rintro ⟨p, hp, hip⟩
    exact List.mem_flatten.mpr ⟨f p, List.mem_map_of_mem f hp, hip⟩

mutual

theorem cloneObject3D_ids (n : SceneNode) (f : Nat) :
    f < (cloneObject3D n f).2 ∧
    (sceneNodeIds (cloneObject3D n f).1).Nodup ∧
    ∀ i ∈ sceneNodeIds (cloneObject3D n f).1, f ≤ i ∧ i < (cloneObject3D n f).2 := by
  match n with
  | SceneNode.mk j cs =>
    have ih := cloneSceneList_ids cs (f + 1)
    rcases hx : cloneSceneList cs (f + 1) with ⟨cs2, f2⟩
    rw [hx] at ih
    obtain ⟨ihle, ihnd, ihb⟩ := ih
    rw [cloneObject3D]
    simp only [hx, sceneNodeIds]
    refine ⟨by omega, ?_, ?_⟩
    · rw [List.nodup_cons]
      exact ⟨fun hmem => by have := ihb f hmem; omega, ihnd⟩
    · intro i hi
      rcases List.mem_cons.mp hi with he | ht
      · omega
      · have := ihb i ht
        omega

theorem cloneSceneList_ids (cs : List SceneNode) (f : Nat) :
    f ≤ (cloneSceneList cs f).2 ∧
    (sceneListIds (cloneSceneList cs f).1).Nodup ∧
    ∀ i ∈ sceneListIds (cloneSceneList cs f).1, f ≤ i ∧ i < (cloneSceneList cs f).2 := by
  match cs with
  | [] =>
    refine ⟨Nat.le_refl f, List.nodup_nil, ?_⟩
    intro i hi
    simp [cloneSceneList, sceneListIds] at hi
  | c :: rest =>
    have ih1 := cloneObject3D_ids c f
    rcases h1 : cloneObject3D c f with ⟨c2, f2⟩
    rw [h1] at ih1
    obtain ⟨ih1lt, ih1nd, ih1b⟩ := ih1
    have ih2 := cloneSceneList_ids rest f2
    rcases h2 : cloneSceneList rest f2 with ⟨rest2, f3⟩
    rw [h2] at ih2
    obtain ⟨ih2le, ih2nd, ih2b⟩ := ih2
    rw [cloneSceneList]
    simp only [h1, h2, sceneListIds]
    refine ⟨by omega, ?_, ?_⟩
    · rw [List.nodup_append]
      refine ⟨ih1nd, ih2nd, ?_⟩
      intro a ha hb
      have := ih1b a ha
      have := ih2b a hb
      omega
    · intro i hi
      rcases List.mem_append.mp hi with ha | hb
      · have := ih1b i ha
        omega
      · have := ih2b i hb
        omega

end

theorem cloneGltf_ids (g : Gltf) (f : Nat) :
    f < (cloneGltf g f).2 ∧
    (sceneNodeIds (cloneGltf g f).1.scene).Nodup ∧
    (∀ i ∈ sceneNodeIds (cloneGltf g f).1.scene, f ≤ i ∧ i < (cloneGltf g f).2) ∧
    (cloneGltf g f).1.sceneAnimations = g.sceneAnimations := by
  have h := cloneObject3D_ids g.scene f
  rcases hx : cloneObject3D g.scene f with ⟨scene2, f2⟩
  rw [hx] at h
  rw [cloneGltf]
  simp only [hx]
  exact ⟨h.1, h.2.1, h.2.2, trivial⟩

theorem GLTFCache_release_sub (cache : GltfCacheT) (src : String) :
    ∀ p ∈ (GLTFCache.release cache src).1, ∃ q, q ∈ cache ∧ q.2.gltf = p.2.gltf := by
  unfold GLTFCache.release
  rcases hl : alookup cache src with _ | item
  · dsimp only
    intro p hp
    exact ⟨p, hp, rfl⟩
  · dsimp only
    by_cases hc : ({ item with count := item.count - 1 } : GltfItem).count ≤ 0
    · rw [if_pos hc]
      intro p hp
      exact ⟨p, mem_adelete hp, rfl⟩
    · rw [if_neg hc]
      intro p hp
      rcases mem_aset hp with he | hm
      · exact ⟨(src, item), alookup_mem hl, by rw [he]⟩
      · exact ⟨p, hm, rfl⟩

theorem gltfCacheIds_of_sub {s2 s : GltfSys}
    (h : ∀ p ∈ s2.cache, ∃ q, q ∈ s.cache ∧ q.2.gltf = p.2.gltf) :
    ∀ j ∈ gltfCacheIds s2, j ∈ gltfCacheIds s := by
  intro j hj
  unfold gltfCacheIds at hj ⊢
  rcases (mem_flatten_map _).mp hj with ⟨p, hp, hip⟩
  rcases h p hp with ⟨q, hq, hgl⟩
  exact (mem_flatten_map _).mpr ⟨q, hq, by rw [hgl]; exact hip⟩

theorem gltfIntIds_sub_of {s2 s : GltfSys}
    (hc : ∀ p ∈ s2.cache, ∃ q, q ∈ s.cache ∧ q.2.gltf = p.2.gltf)
    (hl : s2.loads = s.loads) :
    ∀ j ∈ gltfIntIds s2, j ∈ gltfIntIds s := by
  intro j hj
  unfold gltfIntIds at hj ⊢
  rcases List.mem_append.mp hj with hcj | hlj
  · exact List.mem_append_left _ (gltfCacheIds_of_sub hc j hcj)
  · refine List.mem_append_right _ ?_
    unfold gltfLoadIds at hlj ⊢
    rw [hl] at hlj
    exact hlj

theorem gltfStepOk_tail {s s2 : GltfSys}
    (hn : s2.nextId = s.nextId) (ho : s2.outputs = s.outputs)
    (hint : ∀ j ∈ gltfIntIds s2, j ∈ gltfIntIds s) :
    GltfStepOk s s2 := by
  refine ⟨[], Nat.le_of_eq hn.symm, ?_, List.nodup_nil, ?_, ?_, ?_⟩
  · show gltfOutIds s2 = gltfOutIds s ++ []
    unfold gltfOutIds
    rw [ho, List.append_nil]
  · intro i hi
    simp at hi
  · intro i hi
    exact Or.inl (hint i hi)
  · intro o hoo
    exact Or.inl (ho ▸ hoo)

theorem gltfStepOk_refl (s : GltfSys) : GltfStepOk s s :=
  gltfStepOk_tail rfl rfl (fun _ hj => hj)

theorem gltfStepOk_trans {s1 s2 s3 : GltfSys}
    (h12 : GltfStepOk s1 s2) (h23 : GltfStepOk s2 s3) : GltfStepOk s1 s3 := by
  obtain ⟨f1, hn1, ho1, hnd1, hb1, hi1, ha1⟩ := h12
  obtain ⟨f2, hn2, ho2, hnd2, hb2, hi2, ha2⟩ := h23
  refine ⟨f1 ++ f2, Nat.le_trans hn1 hn2, ?_, ?_, ?_, ?_, ?_⟩
  · rw [ho2, ho1, List.append_assoc]
  · rw [List.nodup_append]
    refine ⟨hnd1, hnd2, ?_⟩
    intro a ha hb
    have := hb1 a ha
    have := hb2 a hb
    omega
  · intro i hi
    rcases List.mem_append.mp hi with ha | hb
    · have := hb1 i ha
      omega
    · have := hb2 i hb
      omega
  · intro i hi
    rcases hi2 i hi with hold | ⟨hlo, hhi, hnf⟩
    · rcases hi1 i hold with hold1 | ⟨hlo1, hhi1, hnf1⟩
      · exact Or.inl hold1
      · refine Or.inr ⟨hlo1, by omega, ?_⟩
        intro hmem
        rcases List.mem_append.mp hmem with hma | hmb
        · exact hnf1 hma
        · have := hb2 i hmb
          omega
    · refine Or.inr ⟨by omega, hhi, ?_⟩
      intro hmem
      rcases List.mem_append.mp hmem with hma | hmb
      · have := hb1 i hma
        omega
      · exact hnf hmb
  · intro o ho
    rcases ha2 o ho with hold | hnew
    · exact ha1 o hold
    · exact Or.inr hnew

theorem gltfRelease_shape (s : GltfSys) (src : String) :
    (gltfRelease s src).nextId = s.nextId ∧
    (gltfRelease s src).outputs = s.outputs ∧
    (gltfRelease s src).loads = s.loads ∧
    ∀ p ∈ (gltfRelease s src).cache, ∃ q, q ∈ s.cache ∧ q.2.gltf = p.2.gltf := by
  have hsub := GLTFCache_release_sub s.cache src
  unfold gltfRelease
  rcases hrel : GLTFCache.release s.cache src with ⟨cache2, nodes, errored⟩
  rw [hrel] at hsub
  simp only [hrel]
  rcases errored with _ | _
  · simp only [Bool.false_eq_true, if_false]
    exact ⟨by trivial, by trivial, by trivial, hsub⟩
  · simp only [if_true]
    exact ⟨by trivial, by trivial, by trivial, hsub⟩

theorem gltfRetain_shape (s : GltfSys) (src : String) :
    (gltfRetain s src).1.nextId = s.nextId ∧
    (gltfRetain s src).1.outputs = s.outputs ∧
    (gltfRetain s src).1.loads = s.loads ∧
    ∀ p ∈ (gltfRetain s src).1.cache, ∃ q, q ∈ s.cache ∧ q.2.gltf = p.2.gltf := by
  unfold gltfRetain GLTFCache.retain
  rcases hl : alookup s.cache src with _ | item
  · dsimp only
    exact ⟨rfl, rfl, rfl, fun p hp => ⟨p, hp, rfl⟩⟩
  · dsimp only
    refine ⟨rfl, rfl, rfl, ?_⟩
    intro p hp
    rcases mem_aset hp with he | hm
    · exact ⟨(src, item), alookup_mem hl, by rw [he]⟩
    · exact ⟨p, hm, rfl⟩

theorem gltfSet_shape (s : GltfSys) (src : String) (g : Gltf) :
    (gltfSet s src g).1.nextId = s.nextId ∧
    (gltfSet s src g).1.outputs = s.outputs ∧
    (gltfSet s src g).1.loads = s.loads ∧
    ∀ p ∈ (gltfSet s src g).1.cache,
      p.2.gltf = g ∨ ∃ q, q ∈ s.cache ∧ q.2.gltf = p.2.gltf := by
  unfold gltfSet GLTFCache.set GLTFCache.retain
  rw [alookup_aset_self]
  dsimp only
  refine ⟨rfl, rfl, rfl, ?_⟩
  intro p hp
  rcases mem_aset hp with he | hm
  · left
    rw [he]
  · rcases mem_aset hm with he2 | hm2
    · left
      rw [he2]
    · right
      exact ⟨p, hm2, rfl⟩

theorem gltfDisposeLastInflated_shape (s : GltfSys) (i : Nat) (c : GConsumer) :
    (gltfDisposeLastInflated s i c).1.nextId = s.nextId ∧
    (gltfDisposeLastInflated s i c).1.outputs = s.outputs ∧
    (gltfDisposeLastInflated s i c).1.loads = s.loads ∧
    (gltfDisposeLastInflated s i c).1.cache = s.cache := by
  unfold gltfDisposeLastInflated
  rcases hx : c.inflatedEl with _ | el
  · exact ⟨rfl, rfl, rfl, rfl⟩
  · exact ⟨rfl, rfl, rfl, rfl⟩

theorem gltfFinish_shape (s : GltfSys) (i : Nat) (c : GConsumer) (savedLast : Option String) :
    (gltfFinish s i c savedLast).nextId = s.nextId ∧
    (gltfFinish s i c savedLast).outputs = s.outputs ∧
    (gltfFinish s i c savedLast).loads = s.loads ∧
    ∀ p ∈ (gltfFinish s i c savedLast).cache, ∃ q, q ∈ s.cache ∧ q.2.gltf = p.2.gltf := by
  unfold gltfFinish
  rcases savedLast with _ | l
  · dsimp only
    exact ⟨rfl, rfl, rfl, fun p hp => ⟨p, hp, rfl⟩⟩
  · dsimp only
    have hr := gltfRelease_shape s l
    exact ⟨hr.1, hr.2.1, hr.2.2.1, fun p hp => hr.2.2.2 p hp⟩

theorem gltfAfterLoad_shape (s : GltfSys) (i : Nat) (c : GConsumer) (src : String)
    (savedLast : Option String) :
    (gltfAfterLoad s i c src savedLast).nextId = s.nextId ∧
    (gltfAfterLoad s i c src savedLast).outputs = s.outputs ∧
    (gltfAfterLoad s i c src savedLast).loads = s.loads ∧
    ∀ p ∈ (gltfAfterLoad s i c src savedLast).cache,
      ∃ q, q ∈ s.cache ∧ q.2.gltf = p.2.gltf := by
  unfold gltfAfterLoad
  by_cases hst : some src ≠ c.lastSrc
  · rw [if_pos hst]
    exact ⟨rfl, rfl, rfl, fun p hp => ⟨p, hp, rfl⟩⟩
  · rw [if_neg hst]
    have hd := gltfDisposeLastInflated_shape s i c
    rcases hx : gltfDisposeLastInflated s i c with ⟨s1, c1⟩
    rw [hx] at hd
    simp only [hx]
    by_cases hin : c1.inflate = true
    · rw [if_pos hin]
      dsimp only
      refine ⟨hd.1, hd.2.1, hd.2.2.1, ?_⟩
      intro p hp
      rw [hd.2.2.2] at hp
      exact ⟨p, hp, rfl⟩
    · rw [if_neg hin]
      have hf := gltfFinish_shape s1 i c1 savedLast
      refine ⟨hf.1.trans hd.1, hf.2.1.trans hd.2.1, hf.2.2.1.trans hd.2.2.1, ?_⟩
      intro p hp
      rcases hf.2.2.2 p hp with ⟨q, hq, hgl⟩
      rw [hd.2.2.2] at hq
      exact ⟨q, hq, hgl⟩

theorem gltfTick_shape (s : GltfSys) :
    (gltfTick s).nextId = s.nextId ∧
    (gltfTick s).outputs = s.outputs ∧
    (gltfTick s).loads = s.loads ∧
    ∀ p ∈ (gltfTick s).cache, ∃ q, q ∈ s.cache ∧ q.2.gltf = p.2.gltf := by
  unfold gltfTick
  rcases htw : s.tickWaiters with _ | ⟨tw, rest⟩
  · exact ⟨rfl, rfl, rfl, fun p hp => ⟨p, hp, rfl⟩⟩
  · dsimp only
    rcases hc : ({ s with tickWaiters := rest } : GltfSys).consumers.get? tw.consumer with _ | c
    · simp only [hc]
      exact ⟨by trivial, by trivial, by trivial, fun p hp => ⟨p, hp, rfl⟩⟩
    · simp only [hc]
      by_cases hst : some tw.src ≠ c.lastSrc
      · rw [if_pos hst]
        exact ⟨rfl, rfl, rfl, fun p hp => ⟨p, hp, rfl⟩⟩
      · rw [if_neg hst]
        have hf := gltfFinish_shape { s with tickWaiters := rest } tw.consumer c tw.savedLast
        exact ⟨hf.1, hf.2.1, hf.2.2.1, fun p hp => hf.2.2.2 p hp⟩

theorem gltfRelease_stepOk (s : GltfSys) (src : String) :
    GltfStepOk s (gltfRelease s src) :=
  gltfStepOk_tail (gltfRelease_shape s src).1 (gltfRelease_shape s src).2.1
    (gltfIntIds_sub_of (gltfRelease_shape s src).2.2.2 (gltfRelease_shape s src).2.2.1)

theorem gltfAfterLoad_stepOk (s : GltfSys) (i : Nat) (c : GConsumer) (src : String)
    (savedLast : Option String) :
    GltfStepOk s (gltfAfterLoad s i c src savedLast) :=
  gltfStepOk_tail (gltfAfterLoad_shape s i c src savedLast).1
    (gltfAfterLoad_shape s i c src savedLast).2.1
    (gltfIntIds_sub_of (gltfAfterLoad_shape s i c src savedLast).2.2.2
      (gltfAfterLoad_shape s i c src savedLast).2.2.1)

theorem gltfTick_stepOk (s : GltfSys) : GltfStepOk s (gltfTick s) :=
  gltfStepOk_tail (gltfTick_shape s).1 (gltfTick_shape s).2.1
    (gltfIntIds_sub_of (gltfTick_shape s).2.2.2 (gltfTick_shape s).2.2.1)

theorem gltfStepOk_addOutput {s1 : GltfSys} {g clone : Gltf} {f2 : Nat}
    (hcl : cloneGltf g s1.nextId = (clone, f2)) (cons : Nat) (key : String) :
    GltfStepOk s1
      { s1 with nextId := f2, outputs := s1.outputs ++ [⟨cons, key, clone, g⟩] } := by
  have hc := cloneGltf_ids g s1.nextId
  rw [hcl] at hc
  obtain ⟨hlt, hnd, hb, han⟩ := hc
  refine ⟨sceneNodeIds clone.scene, Nat.le_of_lt hlt, ?_, hnd, ?_, ?_, ?_⟩
  · show gltfOutIds _ = gltfOutIds s1 ++ _
    unfold gltfOutIds
    dsimp only
    simp [List.flatten_append]
  · intro i hi
    exact hb i hi
  · intro i hi
    exact Or.inl hi
  · intro o ho
    rcases List.mem_append.mp ho with hold | hnew
    · exact Or.inl hold
    · rw [List.mem_singleton] at hnew
      subst hnew
      exact Or.inr han

theorem gltfSet_stepOk (s : GltfSys) (src : String) (g : Gltf)
    (hg : ∀ j ∈ sceneNodeIds g.scene, j ∈ gltfLoadIds s) :
    GltfStepOk s (gltfSet s src g).1 ∧ (gltfSet s src g).1.loads = s.loads := by
  have hs := gltfSet_shape s src g
  refine ⟨⟨[], Nat.le_of_eq hs.1.symm, ?_, List.nodup_nil, ?_, ?_, ?_⟩, hs.2.2.1⟩
  · show gltfOutIds _ = gltfOutIds s ++ []
    unfold gltfOutIds
    rw [hs.2.1, List.append_nil]
  · intro i hi
    simp at hi
  · intro i hi
    refine Or.inl ?_
    unfold gltfIntIds at hi ⊢
    rcases List.mem_append.mp hi with hcj | hlj
    · unfold gltfCacheIds at hcj
      rcases (mem_flatten_map _).mp hcj with ⟨p, hp, hip⟩
      rcases hs.2.2.2 p hp with hpg | ⟨q, hq, hgl⟩
      · refine List.mem_append_right _ ?_
        rw [hpg] at hip
        exact hg i hip
      · refine List.mem_append_left _ ?_
        unfold gltfCacheIds
        exact (mem_flatten_map _).mpr ⟨q, hq, by rw [hgl]; exact hip⟩
    · refine List.mem_append_right _ ?_
      unfold gltfLoadIds at hlj ⊢
      rw [hs.2.2.1] at hlj
      exact hlj
  · intro o ho
    exact Or.inl (hs.2.1 ▸ ho)

theorem gltfResume_stepOk (s : GltfSys) (out : Option Gltf) (aw : GAwaiter)
    (hg : ∀ g, out = some g → ∀ j ∈ sceneNodeIds g.scene, j ∈ gltfLoadIds s) :
    GltfStepOk s (gltfResume s out aw) ∧ (gltfResume s out aw).loads = s.loads := by
  unfold gltfResume
  rcases hcon : s.consumers.get? aw.consumer with _ | c
  · exact ⟨gltfStepOk_refl s, rfl⟩
  · dsimp only
    rcases out with _ | g
    · dsimp only
      have hr := gltfRelease_shape s aw.src
      exact ⟨gltfStepOk_tail hr.1 hr.2.1 (gltfIntIds_sub_of hr.2.2.2 hr.2.2.1), hr.2.2.1⟩
    · dsimp only
      by_cases hst2 : aw.starter = true
      · rw [if_pos hst2]
        have hg1 : ∀ j ∈ sceneNodeIds g.scene,
            j ∈ gltfLoadIds { s with inflight := adelete s.inflight aw.src } :=
          hg g rfl
        have hsetOk := gltfSet_stepOk { s with inflight := adelete s.inflight aw.src }
          aw.src g hg1
        have h0 : GltfStepOk s { s with inflight := adelete s.inflight aw.src } :=
          gltfStepOk_tail rfl rfl (fun _ hj => hj)
        rcases hset : gltfSet { s with inflight := adelete s.inflight aw.src } aw.src g
          with ⟨s2, _ | item⟩
        · rw [hset] at hsetOk
          dsimp only at hsetOk
          exact ⟨gltfStepOk_trans h0 hsetOk.1, hsetOk.2⟩
        · rw [hset] at hsetOk
          dsimp only at hsetOk
          obtain ⟨clone, f2, hcl⟩ : ∃ clone f2, cloneGltf g s2.nextId = (clone, f2) :=
            ⟨_, _, rfl⟩
          dsimp only
          rw [hcl]
          dsimp only
          have h2 := gltfStepOk_addOutput hcl aw.consumer aw.src
          have h3 := gltfAfterLoad_stepOk
            { s2 with nextId := f2, outputs := s2.outputs ++ [⟨aw.consumer, aw.src, clone, g⟩] }
            aw.consumer c aw.src aw.savedLast
          refine ⟨gltfStepOk_trans (gltfStepOk_trans (gltfStepOk_trans h0 hsetOk.1) h2) h3, ?_⟩
          exact (gltfAfterLoad_shape _ _ _ _ _).2.2.1.trans hsetOk.2
      · rw [if_neg hst2]
        have hret := gltfRetain_shape s aw.src
        rcases hrx : gltfRetain s aw.src with ⟨s1, _ | item⟩
        · rw [hrx] at hret
          dsimp only at hret
          dsimp only
          exact ⟨gltfStepOk_tail hret.1 hret.2.1 (gltfIntIds_sub_of hret.2.2.2 hret.2.2.1),
            hret.2.2.1⟩
        · rw [hrx] at hret
          dsimp only at hret
          have h1 : GltfStepOk s s1 :=
            gltfStepOk_tail hret.1 hret.2.1 (gltfIntIds_sub_of hret.2.2.2 hret.2.2.1)
          obtain ⟨clone, f2, hcl⟩ : ∃ clone f2, cloneGltf g s1.nextId = (clone, f2) :=
            ⟨_, _, rfl⟩
          dsimp only
          rw [hcl]
          dsimp only
          have h2 := gltfStepOk_addOutput hcl aw.consumer aw.src
          have h3 := gltfAfterLoad_stepOk
            { s1 with nextId := f2, outputs := s1.outputs ++ [⟨aw.consumer, aw.src, clone, g⟩] }
            aw.consumer c aw.src aw.savedLast
          refine ⟨gltfStepOk_trans (gltfStepOk_trans h1 h2) h3, ?_⟩
          exact (gltfAfterLoad_shape _ _ _ _ _).2.2.1.trans hret.2.2.1

theorem gltfResume_fold_stepOk (aws : List GAwaiter) (s : GltfSys) (out : Option Gltf)
    (hg : ∀ g, out = some g → ∀ j ∈ sceneNodeIds g.scene, j ∈ gltfLoadIds s) :
    GltfStepOk s (aws.foldl (fun acc aw => gltfResume acc out aw) s) ∧
    (aws.foldl (fun acc aw => gltfResume acc out aw) s).loads = s.loads := by
  induction aws generalizing s with
  | nil => exact ⟨gltfStepOk_refl s, rfl⟩
  | cons aw rest ih =>
    rw [List.foldl_cons]
    have h1 := gltfResume_stepOk s out aw hg
    have hg2 : ∀ g, out = some g →
        ∀ j ∈ sceneNodeIds g.scene, j ∈ gltfLoadIds (gltfResume s out aw) := by
      intro g hgq j hj
      have hmem := hg g hgq j hj
      unfold gltfLoadIds at hmem ⊢
      rw [h1.2]
      exact hmem
    have h2 := ih (gltfResume s out aw) hg2
    exact ⟨gltfStepOk_trans h1.1 h2.1, h2.2.trans h1.2⟩

theorem gltfStepOk_noNewIds {s s2 : GltfSys} (hn : s.nextId ≤ s2.nextId)
    (ho : s2.outputs = s.outputs) (hcache : s2.cache = s.cache)
    (hloads : ∀ p ∈ s2.loads, gltfLoadStatusIds p.2.status = [] ∨ p ∈ s.loads) :
    GltfStepOk s s2 := by
  refine ⟨[], hn, ?_, List.nodup_nil, ?_, ?_, ?_⟩
  · show gltfOutIds s2 = gltfOutIds s ++ []
    unfold gltfOutIds
    rw [ho, List.append_nil]
  · intro j hj
    simp at hj
  · intro j hj
    refine Or.inl ?_
    unfold gltfIntIds at hj ⊢
    rcases List.mem_append.mp hj with hcj | hlj
    · refine List.mem_append_left _ ?_
      unfold gltfCacheIds at hcj ⊢
      rw [hcache] at hcj
      exact hcj
    · refine List.mem_append_right _ ?_
      unfold gltfLoadIds at hlj ⊢
      rcases (mem_flatten_map _).mp hlj with ⟨p, hp, hip⟩
      rcases hloads p hp with hz | hm
      · rw [hz] at hip
        simp at hip
      · exact (mem_flatten_map _).mpr ⟨p, hm, hip⟩
  · intro o hoo
    exact Or.inl (ho ▸ hoo)

theorem gltfSettle_stepOk (s : GltfSys) (lid : Nat) (out : Option SceneNode) :
    GltfStepOk s (gltfSettle s lid out) := by
  unfold gltfSettle
  rcases hlr : alookup s.loads lid with _ | lr
  · exact gltfStepOk_refl s
  · obtain ⟨lsrc, lst, las⟩ := lr
    dsimp only
    rcases lst with _ | g0 | _
    · rcases out with _ | shape
      · dsimp only
        have h1 : GltfStepOk s
            { s with loads := aset s.loads lid ⟨lsrc, GltfLoadStatus.failed, las⟩ } := by
          refine gltfStepOk_noNewIds (Nat.le_refl _) rfl rfl ?_
          intro p hp
          rcases mem_aset hp with he | hm
          · rw [he]
            exact Or.inl rfl
          · exact Or.inr hm
        have hfold := gltfResume_fold_stepOk las
          { s with loads := aset s.loads lid ⟨lsrc, GltfLoadStatus.failed, las⟩ }
          none (fun g hgq => nomatch hgq)
        exact gltfStepOk_trans h1 hfold.1
      · dsimp only
        obtain ⟨scene, f2, hclo⟩ : ∃ sc f2, cloneObject3D shape s.nextId = (sc, f2) :=
          ⟨_, _, rfl⟩
        rw [hclo]
        dsimp only
        have hci := cloneObject3D_ids shape s.nextId
        rw [hclo] at hci
        have h1 : GltfStepOk s
            { s with
              nextId := f2 + 1
              loads := aset s.loads lid ⟨lsrc, GltfLoadStatus.succeeded ⟨scene, f2⟩, las⟩ } := by
          refine ⟨[], ?_, ?_, List.nodup_nil, ?_, ?_, ?_⟩
          · have := hci.1
            dsimp only
            omega
          · show gltfOutIds _ = gltfOutIds s ++ []
            rw [List.append_nil]
            rfl
          · intro j hj
            simp at hj
          · intro j hj
            unfold gltfIntIds at hj ⊢
            rcases List.mem_append.mp hj with hcj | hlj
            · exact Or.inl (List.mem_append_left _ hcj)
            · unfold gltfLoadIds at hlj
              rcases (mem_flatten_map _).mp hlj with ⟨p, hp, hip⟩
              rcases mem_aset hp with he | hm
              · rw [he] at hip
                have hb2 := hci.2.2 j hip
                exact Or.inr ⟨hb2.1, by dsimp only; omega, by simp⟩
              · refine Or.inl (List.mem_append_right _ ?_)
                unfold gltfLoadIds
                exact (mem_flatten_map _).mpr ⟨p, hm, hip⟩
          · intro o ho
            exact Or.inl ho
        have hg1 : ∀ g2, (some (⟨scene, f2⟩ : Gltf) : Option Gltf) = some g2 →
            ∀ j ∈ sceneNodeIds g2.scene,
              j ∈ gltfLoadIds
                { s with
                  nextId := f2 + 1
                  loads := aset s.loads lid ⟨lsrc, GltfLoadStatus.succeeded ⟨scene, f2⟩, las⟩ } := by
          intro g2 heq j hj
          have hg2 : g2 = (⟨scene, f2⟩ : Gltf) := by
            injection heq with h
            exact h.symm
          subst hg2
          unfold gltfLoadIds
          refine (mem_flatten_map _).mpr
            ⟨(lid, (⟨lsrc, GltfLoadStatus.succeeded ⟨scene, f2⟩, las⟩ : GltfLoad)), ?_, ?_⟩
          · exact alookup_mem (alookup_aset_self s.loads lid _)
          · exact hj
        have hfold := gltfResume_fold_stepOk las _ _ hg1
        exact gltfStepOk_trans h1 hfold.1
    · exact gltfStepOk_refl s
    · exact gltfStepOk_refl s

theorem gltfApplySrc_stepOk (s : GltfSys) (i : Nat) (src : String) :
    GltfStepOk s (gltfApplySrc s i src) := by
  unfold gltfApplySrc
  rcases hc0 : s.consumers.get? i with _ | c0
  · exact gltfStepOk_refl s
  · try dsimp only
    by_cases hsame : some src = c0.lastSrc
    · rw [if_pos hsame]
      exact gltfStepOk_refl s
    · rw [if_neg hsame]
      set s9 : GltfSys := { s with consumers := s.consumers.set i { c0 with lastSrc := some src } }
        with hs9
      have h0 : GltfStepOk s s9 := by
        rw [hs9]
        exact gltfStepOk_tail rfl rfl (fun _ hj => hj)
      by_cases hemp : src = ""
      · rw [if_pos hemp]
        try dsimp only
        have hd := gltfDisposeLastInflated_shape s9 i { c0 with lastSrc := some src }
        rcases hx : gltfDisposeLastInflated s9 i { c0 with lastSrc := some src } with ⟨s1, c1⟩
        rw [hx] at hd
        try dsimp only
        refine gltfStepOk_trans h0 ?_
        refine gltfStepOk_noNewIds (Nat.le_of_eq hd.1.symm) hd.2.1 hd.2.2.2 ?_
        exact fun p hp => Or.inr (hd.2.2.1 ▸ hp)
      · rw [if_neg hemp]
        try dsimp only
        by_cases hhit : GLTFCache.has s9.cache src = true
        · rw [if_pos hhit]
          have hret := gltfRetain_shape s9 src
          rcases hrx : gltfRetain s9 src with ⟨s1, _ | item⟩
          · rw [hrx] at hret
            dsimp only at hret
            try dsimp only
            exact gltfStepOk_trans h0
              (gltfStepOk_tail hret.1 hret.2.1 (gltfIntIds_sub_of hret.2.2.2 hret.2.2.1))
          · rw [hrx] at hret
            dsimp only at hret
            have h1 : GltfStepOk s9 s1 :=
              gltfStepOk_tail hret.1 hret.2.1 (gltfIntIds_sub_of hret.2.2.2 hret.2.2.1)
            obtain ⟨clone, f2, hcl⟩ : ∃ clone f2, cloneGltf item.gltf s1.nextId = (clone, f2) :=
              ⟨_, _, rfl⟩
            try dsimp only
            rw [hcl]
            try dsimp only
            have h2 := gltfStepOk_addOutput hcl i src
            have h3 := gltfAfterLoad_stepOk
              { s1 with nextId := f2, outputs := s1.outputs ++ [⟨i, src, clone, item.gltf⟩] }
              i { c0 with lastSrc := some src } src c0.lastSrc
            exact gltfStepOk_trans h0 (gltfStepOk_trans (gltfStepOk_trans h1 h2) h3)
        · rw [if_neg hhit]
          try dsimp only
          rcases hinf : alookup s9.inflight src with _ | lid
          · try dsimp only
            refine gltfStepOk_trans h0 ?_
            refine gltfStepOk_noNewIds (by dsimp only; omega) rfl rfl ?_
            intro p hp
            rcases mem_aset hp with he | hm
            · rw [he]
              exact Or.inl rfl
            · exact Or.inr hm
          · try dsimp only
            rcases hlr : alookup s9.loads lid with _ | lr
            · try dsimp only
              exact h0
            · obtain ⟨lsrc, lst, las2⟩ := lr
              try dsimp only
              rcases lst with _ | g | _
              · try dsimp only
                refine gltfStepOk_trans h0 ?_
                refine gltfStepOk_noNewIds (Nat.le_refl _) rfl rfl ?_
                intro p hp
                rcases mem_aset hp with he | hm
                · rw [he]
                  exact Or.inl rfl
                · exact Or.inr hm
              · try dsimp only
                refine gltfStepOk_trans h0 ?_
                refine (gltfResume_stepOk s9 (some g) ⟨i, src, c0.lastSrc, false⟩ ?_).1
                intro g2 heq j hj
                have hg2 : g2 = g := by
                  injection heq with h
                  exact h.symm
                rw [hg2] at hj
                unfold gltfLoadIds
                exact (mem_flatten_map _).mpr
                  ⟨(lid, (⟨lsrc, GltfLoadStatus.succeeded g, las2⟩ : GltfLoad)),
                    alookup_mem hlr, hj⟩
              · try dsimp only
                exact gltfStepOk_trans h0
                  ((gltfResume_stepOk s9 none ⟨i, src, c0.lastSrc, false⟩
                    (fun g hgq => nomatch hgq)).1)

theorem gltfStep_stepOk (s : GltfSys) (e : GEvent) : GltfStepOk s (gltfStep s e) := by
  rcases e with ⟨i, src⟩ | ⟨lid, out⟩ | _
  · exact gltfApplySrc_stepOk s i src
  · exact gltfSettle_stepOk s lid out
  · exact gltfTick_stepOk s

theorem gltfIdInv_step {s s2 : GltfSys} (hinv : GltfIdInv s) (hok : GltfStepOk s s2) :
    GltfIdInv s2 := by
  obtain ⟨f, hn, ho, hnd, hb, hi, ha⟩ := hok
  refine ⟨?_, ?_, ?_, ?_, ?_⟩
  · rw [ho, List.nodup_append]
    refine ⟨hinv.outNodup, hnd, ?_⟩
    intro a haa hab
    have h1 := hinv.outBound a haa
    have h2 := hb a hab
    omega
  · intro j hj
    rw [ho] at hj
    rcases List.mem_append.mp hj with h1 | h2
    · have := hinv.outBound j h1
      omega
    · exact (hb j h2).2
  · intro j hj
    rcases hi j hj with h1 | ⟨_, h2, _⟩
    · have := hinv.intBound j h1
      omega
    · exact h2
  · intro j hj hjint
    rw [ho] at hj
    rcases hi j hjint with h1 | ⟨hlo, hhi2, hnf⟩
    · rcases List.mem_append.mp hj with ha1 | ha2
      · exact hinv.outDisjInt j ha1 h1
      · have := hb j ha2
        have := hinv.intBound j h1
        omega
    · rcases List.mem_append.mp hj with ha1 | ha2
      · have := hinv.outBound j ha1
        omega
      · exact hnf ha2
  · intro o ho2
    rcases ha o ho2 with h1 | h2
    · exact hinv.animShared o h1
    · exact h2

theorem gltfInit_inv (consumers : List GConsumer) : GltfIdInv (gltfInit consumers) := by
  refine ⟨?_, ?_, ?_, ?_, ?_⟩ <;>
    simp [gltfInit, gltfOutIds, gltfIntIds, gltfCacheIds, gltfLoadIds]

theorem gltfRun_stepOk (s : GltfSys) (events : List GEvent) :
    GltfStepOk s (gltfRun s events) := by
  induction events generalizing s with
  | nil => exact gltfStepOk_refl s
  | cons e rest ih => exact gltfStepOk_trans (gltfStep_stepOk s e) (ih (gltfStep s e))

theorem gltfRun_inv (consumers : List GConsumer) (events : List GEvent) :
    GltfIdInv (gltfRun (gltfInit consumers) events) :=
  gltfIdInv_step (gltfInit_inv consumers) (gltfRun_stepOk _ events)

/-- C10: with caching enabled, every gltf handed back by loadModel is a fresh
clone of the loaded asset - over every event trace of every set of
gltf-model-plus consumers: (1) each returned gltf shares its animations array
with the gltf it was cloned from; (2)-(3) the scene graphs handed out are
pairwise disjoint in object identity (two calls, same key or not, never share
a node); (4) no handed-out scene node is owned by a GLTFCache entry, so a
consumer mutating or tearing down its copy can touch neither the cached
original nor another consumer's copy. -/
theorem loadModel_returns_fresh_clones (consumers : List GConsumer) (events : List GEvent) :
    (∀ o ∈ (gltfRun (gltfInit consumers) events).outputs,
      o.returned.sceneAnimations = o.srcGltf.sceneAnimations) ∧
    (gltfOutIds (gltfRun (gltfInit consumers) events)).Nodup ∧
    ((gltfRun (gltfInit consumers) events).outputs.map
      (fun o => sceneNodeIds o.returned.scene)).Pairwise List.Disjoint ∧
    ∀ j ∈ gltfOutIds (gltfRun (gltfInit consumers) events),
      j ∉ gltfCacheIds (gltfRun (gltfInit consumers) events) := by
  have hinv := gltfRun_inv consumers events
  refine ⟨hinv.animShared, hinv.outNodup, ?_, ?_⟩
  · have hnd := hinv.outNodup
    unfold gltfOutIds at hnd
    exact (List.nodup_flatten.mp hnd).2
  · intro j hj hcj
    exact hinv.outDisjInt j hj (List.mem_append_left _ hcj)

/-- C10 witness: a concrete one-consumer run - applySrc then a successful
settle - where node 4 is the handed-out clone root and the cache owns node 2:
the clone id is indeed outside the cache. -/
theorem loadModel_returns_fresh_clones_witness :
    (gltfOutIds (gltfRun (gltfInit [initGConsumer false])
      [GEvent.applySrc 0 "w.glb", GEvent.settle 1 (some (SceneNode.mk 0 []))])).Nodup ∧
    (4 : Nat) ∉ gltfCacheIds (gltfRun (gltfInit [initGConsumer false])
      [GEvent.applySrc 0 "w.glb", GEvent.settle 1 (some (SceneNode.mk 0 []))]) :=
  ⟨(loadModel_returns_fresh_clones [initGConsumer false]
      [GEvent.applySrc 0 "w.glb", GEvent.settle 1 (some (SceneNode.mk 0 []))]).2.1,
    (loadModel_returns_fresh_clones [initGConsumer false]
      [GEvent.applySrc 0 "w.glb", GEvent.settle 1 (some (SceneNode.mk 0 []))]).2.2.2
      4 (by decide)⟩

end MediaViews
